import Mathlib

set_option maxHeartbeats 1000000

/-!
Shallow embedding of the `ManipLattice` planning graph from
`sbpl_arm_planner/src/manip_lattice.cpp` of the smpl repository.

Doubles are modelled as exact rationals; the floating-point constant
`M_PI` is a rational parameter `piq` of the environment.  External
collaborators (robot model, collision oracle, occupancy grid, action
space) are oracle fields of `EnvQ`, as are the transcendental functions
`sin`, `cos`, `acos` consumed by the pose-goal test.  The rotation-error
analysis is additionally carried out over the real numbers by
instantiating the same generic definitions with `Real.sin`, `Real.cos`
and `Real.arccos`.
-/

/-- C-style cast of a floating value to `int`: truncation toward zero. -/
def cTrunc (x : ℚ) : ℤ := if 0 ≤ x then ⌊x⌋ else ⌈x⌉

/-- Modelled from the spec: `angles::normalize_angle_positive` (header
`sbpl_arm_planner/angles.h`, repository code not present under `src/`)
maps an angle into `[0, 2π)`.  The spec calls it `normalize_positive`. -/
def normAnglePos (piq a : ℚ) : ℚ := a - 2 * piq * ((⌊a / (2 * piq)⌋ : ℤ) : ℚ)

/-- Modelled from the spec: `angles::normalize_angle` (header
`sbpl_arm_planner/angles.h`, repository code not present under `src/`)
maps an angle into a width-`2π` window around zero; this formulation
yields `[-π, π)` (the boundary convention at exactly `±π` is never
exercised below). -/
def normAngleG {K : Type} [LinearOrderedField K] [FloorRing K] (pi a : K) : K :=
  a - 2 * pi * ((⌊(a + pi) / (2 * pi)⌋ : ℤ) : K)

/-- Hamilton product of quaternions given as `(w, x, y, z)` tuples, as
performed by `Eigen::Quaterniond` multiplication. -/
def quatMul {K : Type} [CommRing K] (a b : K × K × K × K) : K × K × K × K :=
  match a, b with
  | (w1, x1, y1, z1), (w2, x2, y2, z2) =>
    (w1 * w2 - x1 * x2 - y1 * y2 - z1 * z2,
     w1 * x2 + x1 * w2 + y1 * z2 - z1 * y2,
     w1 * y2 - x1 * z2 + y1 * w2 + z1 * x2,
     w1 * z2 + x1 * y2 - y1 * x2 + z1 * w2)

/-- Quaternion of `Eigen::AngleAxisd(t, UnitX())`. -/
def quatAxisX {K : Type} [Field K] (sin cos : K → K) (t : K) : K × K × K × K :=
  (cos (t / 2), sin (t / 2), 0, 0)

/-- Quaternion of `Eigen::AngleAxisd(t, UnitY())`. -/
def quatAxisY {K : Type} [Field K] (sin cos : K → K) (t : K) : K × K × K × K :=
  (cos (t / 2), 0, sin (t / 2), 0)

/-- Quaternion of `Eigen::AngleAxisd(t, UnitZ())`. -/
def quatAxisZ {K : Type} [Field K] (sin cos : K → K) (t : K) : K × K × K × K :=
  (cos (t / 2), 0, 0, sin (t / 2))

/-- Quaternion of `AngleAxisd(y, UnitZ()) * AngleAxisd(p, UnitY()) *
AngleAxisd(r, UnitX())`, the composition used at
`manip_lattice.cpp:618-625` with `r = pose[3]`, `p = pose[4]`,
`y = pose[5]`. -/
def quatFromZYX {K : Type} [Field K] (sin cos : K → K) (r p y : K) : K × K × K × K :=
  quatMul (quatAxisZ sin cos y) (quatMul (quatAxisY sin cos p) (quatAxisX sin cos r))

/-- Coefficient-wise dot product of two quaternions (`Eigen`'s
`Quaterniond::dot`). -/
def quatDot {K : Type} [CommRing K] (a b : K × K × K × K) : K :=
  a.1 * b.1 + a.2.1 * b.2.1 + a.2.2.1 * b.2.2.1 + a.2.2.2 * b.2.2.2

/-- Rotation error as the code computes it at `manip_lattice.cpp:628`:
`normalize_angle(2 * acos(q.dot(qg)))`, with no absolute value on the
dot product.  Arguments `tgt` and `pose` are 6-vectors; the RPY angles
sit at indexes 3..5. -/
def rotErrCode {K : Type} [LinearOrderedField K] [FloorRing K]
    (sin cos acos : K → K) (pi : K) (tgt pose : List K) : K :=
  let qg := quatFromZYX sin cos (tgt.getD 3 0) (tgt.getD 4 0) (tgt.getD 5 0)
  let q := quatFromZYX sin cos (pose.getD 3 0) (pose.getD 4 0) (pose.getD 5 0)
  normAngleG pi (2 * acos (quatDot q qg))

/-- Rotation error as claim C5 states it: the absolute value of the dot
product is taken before `acos`. -/
def rotErrSpecAbs {K : Type} [LinearOrderedField K] [FloorRing K]
    (sin cos acos : K → K) (pi : K) (tgt pose : List K) : K :=
  let qg := quatFromZYX sin cos (tgt.getD 3 0) (tgt.getD 4 0) (tgt.getD 5 0)
  let q := quatFromZYX sin cos (pose.getD 3 0) (pose.getD 4 0) (pose.getD 5 0)
  normAngleG pi (2 * acos |quatDot q qg|)

/-- The `XYZ_RPY_GOAL` branch of `ManipLattice::isGoal`
(`manip_lattice.cpp:598-633`): componentwise translation tolerance
check, then the strict rotation-error comparison `theta < rpy_tol`.
The near-goal logging latch does not affect the returned value and is
not modelled. -/
def isGoalPoseRPY {K : Type} [LinearOrderedField K] [FloorRing K]
    (sin cos acos : K → K) (pi : K)
    (tgt : List K) (xyzTol rpyTol : K × K × K) (pose : List K) : Bool :=
  let dx := |pose.getD 0 0 - tgt.getD 0 0|
  let dy := |pose.getD 1 0 - tgt.getD 1 0|
  let dz := |pose.getD 2 0 - tgt.getD 2 0|
  if dx ≤ xyzTol.1 ∧ dy ≤ xyzTol.2.1 ∧ dz ≤ xyzTol.2.2 then
    decide (rotErrCode sin cos acos pi tgt pose < rpyTol.1)
  else
    false

/-- Application of the rotation matrix `Rz(y) * Ry(p) * Rx(r)` to a
vector, used to move the tip offset into the planning frame
(`manip_lattice.cpp:558-570` and `1098-1108`). -/
def rotZYXApply {K : Type} [CommRing K] (sin cos : K → K) (r p y : K)
    (v : K × K × K) : K × K × K :=
  let cy := cos y
  let sy := sin y
  let cp := cos p
  let sp := sin p
  let cr := cos r
  let sr := sin r
  ((cy * cp) * v.1 + (cy * sp * sr - sy * cr) * v.2.1 + (cy * sp * cr + sy * sr) * v.2.2,
   (sy * cp) * v.1 + (sy * sp * sr + cy * cr) * v.2.1 + (sy * sp * cr - cy * sr) * v.2.2,
   (-sp) * v.1 + (cp * sr) * v.2.1 + (cp * cr) * v.2.2)

/-- Goal type tag (`GoalType` of the smpl headers, not under `src/`;
the three tags match the spec's `POSITION`, `POSE` and `JOINT_STATES`). -/
inductive GoalTypeQ : Type
  | XYZ_GOAL : GoalTypeQ
  | XYZ_RPY_GOAL : GoalTypeQ
  | JOINT_STATE_GOAL : GoalTypeQ
  | UNKNOWN_GOAL : GoalTypeQ
deriving DecidableEq, Repr

/-- Modelled from the spec: the 7th element of a goal vector is a flag
selecting whether orientation constraints are required; the enum cast
`(GoalType)((int)goals[0][6])` at `manip_lattice.cpp:1213` therefore
maps 0 to the position-only tag and 1 to the full-pose tag. -/
def goalTypeOfInt (n : ℤ) : GoalTypeQ :=
  if n = 0 then GoalTypeQ.XYZ_GOAL
  else if n = 1 then GoalTypeQ.XYZ_RPY_GOAL
  else if n = 2 then GoalTypeQ.JOINT_STATE_GOAL
  else GoalTypeQ.UNKNOWN_GOAL

/-- `GoalConstraint`: the active goal record `m_goal`. -/
structure GoalConstraintQ : Type where
  type : GoalTypeQ
  pose : List ℚ
  tgt_off_pose : List ℚ
  xyz_offset : ℚ × ℚ × ℚ
  xyz_tolerance : ℚ × ℚ × ℚ
  rpy_tolerance : ℚ × ℚ × ℚ
  xyz : ℤ × ℤ × ℤ
  angles : List ℚ
  angle_tolerances : List ℚ
deriving DecidableEq

/-- `ManipLatticeState`: one hash entry of the lattice. -/
structure LStateQ : Type where
  stateID : ℕ
  coord : List ℤ
  state : List ℚ
  xyz : ℤ × ℤ × ℤ
  dist : ℚ
deriving DecidableEq

/-- Default hash entry (stands for an out-of-range `m_states` access,
which the source rules out with asserts). -/
def dfltState : LStateQ :=
  { stateID := 0, coord := [], state := [], xyz := (0, 0, 0), dist := 0 }

/-- The mutable part of `ManipLattice`: the `m_states` vector (a state's
ID is its index), the reserved goal entry's ID (`m_goal_entry`) and the
start entry's ID (`m_start_entry`, absent until `setStart` succeeds).
The coord-to-id map `m_state_to_id` is modelled by `getHashEntryQ`
below; insertion order and key uniqueness make a list search faithful. -/
structure LatticeDataQ : Type where
  states : List LStateQ
  goalID : ℕ
  startID : Option ℕ
deriving DecidableEq

/-- Planning parameters plus the external collaborators, all read-only
during a planning episode.  `piq` stands for the double constant `M_PI`;
`sinq`, `cosq`, `arccosq` are the transcendental functions as oracles.
Two-level `Option`s mirror a null interface pointer versus a failing
call. -/
structure EnvQ : Type where
  num_joints : ℕ
  coord_delta : List ℚ
  coord_vals : List ℤ
  cost_multiplier : ℤ
  min_limits : List ℚ
  max_limits : List ℚ
  continuous : List Bool
  piq : ℚ
  fkIface : Option (List ℚ → Option (List ℚ))
  jointLimitsOk : List ℚ → Bool
  isStateValid : List ℚ → Bool × ℚ
  isStateToStateValid : List ℚ → List ℚ → Bool × ℚ
  worldToGrid : ℚ → ℚ → ℚ → ℤ × ℤ × ℤ
  actionSpace : Option (List ℚ → Option (List (List (List ℚ))))
  sinq : ℚ → ℚ
  cosq : ℚ → ℚ
  arccosq : ℚ → ℚ

/-- Scalar step of `ManipLattice::anglesToCoord`
(`manip_lattice.cpp:1313-1335`). -/
def angleToCoord1 (cont : Bool) (minl delta : ℚ) (vals : ℤ) (piq a : ℚ) : ℤ :=
  if cont then
    let pos := normAnglePos piq a
    let c := cTrunc ((pos + delta * (1 / 2)) / delta)
    if c = vals then 0 else c
  else
    cTrunc ((a - minl) / delta + 1 / 2)

/-- Scalar step of `ManipLattice::coordToAngles`
(`manip_lattice.cpp:1297-1311`). -/
def coordToAngle1 (cont : Bool) (minl delta : ℚ) (c : ℤ) : ℚ :=
  if cont then (c : ℚ) * delta else minl + (c : ℚ) * delta

/-- `ManipLattice::anglesToCoord`: per-joint discretization. -/
def anglesToCoordQ (env : EnvQ) (angle : List ℚ) : List ℤ :=
  (List.range angle.length).map fun i =>
    angleToCoord1 (env.continuous.getD i false) (env.min_limits.getD i 0)
      (env.coord_delta.getD i 0) (env.coord_vals.getD i 0) env.piq (angle.getD i 0)

/-- `ManipLattice::coordToAngles`: per-joint decoding. -/
def coordToAnglesQ (env : EnvQ) (coord : List ℤ) : List ℚ :=
  (List.range coord.length).map fun i =>
    coordToAngle1 (env.continuous.getD i false) (env.min_limits.getD i 0)
      (env.coord_delta.getD i 0) (coord.getD i 0)

/-- `ManipLattice::getHashEntry(coord)`: the `m_state_to_id` lookup,
whose hash and equality are on the coordinate contents
(`manip_lattice.cpp:48-54` and `493-503`). -/
def getHashEntryQ (L : LatticeDataQ) (coord : List ℤ) : Option LStateQ :=
  L.states.find? fun s => decide (s.coord = coord)

/-- `ManipLattice::createHashEntry` (`manip_lattice.cpp:505-530`): a new
entry whose ID is the current `m_states` size, appended to `m_states`
and inserted into `m_state_to_id`. -/
def createHashEntryQ (L : LatticeDataQ) (coord : List ℤ) (st : List ℚ)
    (dist : ℚ) (endeff : ℤ × ℤ × ℤ) : LStateQ × LatticeDataQ :=
  let e : LStateQ :=
    { stateID := L.states.length, coord := coord, state := st, xyz := endeff, dist := dist }
  (e, { L with states := L.states ++ [e] })

/-- `ManipLattice::getOrCreateState` (`manip_lattice.cpp:532-543`). -/
def getOrCreateStateQ (L : LatticeDataQ) (coord : List ℤ) (st : List ℚ)
    (dist : ℚ) (endeff : ℤ × ℤ × ℤ) : LStateQ × LatticeDataQ :=
  match getHashEntryQ L coord with
  | some e => (e, L)
  | none => createHashEntryQ L coord st dist endeff

/-- The lattice right after the constructor (`manip_lattice.cpp:90-102`):
only the reserved goal entry, created by `createHashEntry` with the
all-zero coordinate, empty joint state, distance 0 and grid cell
`(0,0,0)`; no start entry. -/
def initLatticeQ (env : EnvQ) : LatticeDataQ :=
  let p := createHashEntryQ { states := [], goalID := 0, startID := none }
      (List.replicate env.num_joints 0) [] 0 (0, 0, 0)
  { p.2 with goalID := p.1.stateID }

/-- `ManipLattice::computePlanningFrameFK` (`manip_lattice.cpp:547-574`):
planning-link FK through the (possibly absent) FK interface, then the
tip offset of the current goal rotated into the planning frame and added
to the translation; the orientation part is unchanged. -/
def computePlanningFrameFKQ (env : EnvQ) (g : GoalConstraintQ) (st : List ℚ) :
    Option (List ℚ) :=
  match env.fkIface with
  | none => none
  | some f =>
    match f st with
    | none => none
    | some pose =>
      let v := rotZYXApply env.sinq env.cosq (pose.getD 3 0) (pose.getD 4 0)
          (pose.getD 5 0) g.xyz_offset
      some ([pose.getD 0 0 + v.1, pose.getD 1 0 + v.2.1, pose.getD 2 0 + v.2.2]
        ++ pose.drop 3)

/-- `ManipLattice::getTargetOffsetPose` (`manip_lattice.cpp:1095-1110`). -/
def getTargetOffsetPoseQ (env : EnvQ) (g : GoalConstraintQ) (tip : List ℚ) : List ℚ :=
  let v := rotZYXApply env.sinq env.cosq (tip.getD 3 0) (tip.getD 4 0)
      (tip.getD 5 0) g.xyz_offset
  [tip.getD 0 0 + v.1, tip.getD 1 0 + v.2.1, tip.getD 2 0 + v.2.2,
   tip.getD 3 0, tip.getD 4 0, tip.getD 5 0]

/-- `ManipLattice::isGoal` (`manip_lattice.cpp:584-650`). -/
def isGoalQ (env : EnvQ) (g : GoalConstraintQ) (st pose : List ℚ) : Bool :=
  match g.type with
  | GoalTypeQ.JOINT_STATE_GOAL =>
    decide (∀ i < g.angles.length,
      |st.getD i 0 - g.angles.getD i 0| ≤ g.angle_tolerances.getD i 0)
  | GoalTypeQ.XYZ_RPY_GOAL =>
    isGoalPoseRPY env.sinq env.cosq env.arccosq env.piq g.tgt_off_pose
      g.xyz_tolerance g.rpy_tolerance pose
  | GoalTypeQ.XYZ_GOAL =>
    decide (|pose.getD 0 0 - g.tgt_off_pose.getD 0 0| ≤ g.xyz_tolerance.1 ∧
      |pose.getD 1 0 - g.tgt_off_pose.getD 1 0| ≤ g.xyz_tolerance.2.1 ∧
      |pose.getD 2 0 - g.tgt_off_pose.getD 2 0| ≤ g.xyz_tolerance.2.2)
  | GoalTypeQ.UNKNOWN_GOAL => false

/-- `ManipLattice::cost` (`manip_lattice.cpp:576-582`): a constant
multiplier, independent of the two entries and of the goal flag. -/
def costQ (env : EnvQ) (_s1 _s2 : LStateQ) (_sIsGoal : Bool) : ℤ :=
  env.cost_multiplier

/-- Collision segment loop of `ManipLattice::checkAction`
(`manip_lattice.cpp:741-751`): check adjacent waypoint pairs in order,
stopping at the first failure; the reported distance is always the last
oracle answer. -/
def segCheckQ (env : EnvQ) : List ℚ → List (List ℚ) → ℚ → Bool × ℚ
  | _, [], d => (true, d)
  | prev, w :: rest, _ =>
    let r := env.isStateToStateValid prev w
    if r.1 then segCheckQ env w rest r.2 else (false, r.2)

/-- `ManipLattice::checkAction` (`manip_lattice.cpp:688-758`): joint
limits of every waypoint (the loop breaks at the first violation, which
leaves the same boolean result and distance 0 as checking them all),
then the segment from the source to the first waypoint, then the
adjacent waypoint segments. -/
def checkActionQ (env : EnvQ) (st : List ℚ) (a : List (List ℚ)) : Bool × ℚ :=
  if a.any (fun w => env.jointLimitsOk w = false) then (false, 0)
  else
    let w0 := a.getD 0 []
    let r0 := env.isStateToStateValid st w0
    if r0.1 then segCheckQ env w0 (a.drop 1) r0.2 else (false, r0.2)

/-- Per-action body of the `GetSuccs` loop
(`manip_lattice.cpp:216-276`): `checkAction`, destination coordinate,
planning-frame FK (skip on failure), grid discretization,
`getOrCreateState`, goal test, and the appended (id, cost) pair. -/
def succStepQ (env : EnvQ) (g : GoalConstraintQ) (parentState : List ℚ)
    (a : List (List ℚ)) (L : LatticeDataQ) : Option (LatticeDataQ × ℕ × ℤ) :=
  let cd := checkActionQ env parentState a
  if cd.1 = false then none
  else
    let last := a.getLastD []
    let sc := anglesToCoordQ env last
    match computePlanningFrameFKQ env g last with
    | none => none
    | some pose =>
      let endeff := env.worldToGrid (pose.getD 0 0) (pose.getD 1 0) (pose.getD 2 0)
      let p := getOrCreateStateQ L sc last cd.2 endeff
      let isg := isGoalQ env g last pose
      some (p.2, (if isg then L.goalID else p.1.stateID),
        costQ env (L.states.getD 0 dfltState) p.1 isg)

/-- The action loop of `GetSuccs`, threading the state table. -/
def succLoopQ (env : EnvQ) (g : GoalConstraintQ) (parentState : List ℚ) :
    List (List (List ℚ)) → LatticeDataQ → LatticeDataQ × List ℕ × List ℤ
  | [], L => (L, [], [])
  | a :: rest, L =>
    match succStepQ env g parentState a L with
    | none => succLoopQ env g parentState rest L
    | some (L1, s, c) =>
      let r := succLoopQ env g parentState rest L1
      (r.1, s :: r.2.1, c :: r.2.2)

/-- `ManipLattice::GetSuccs` (`manip_lattice.cpp:167-283`): empty output
when the action space is absent, when the source is the reserved goal
entry, or when action enumeration fails; otherwise the action loop.
The expansion log `m_expanded_states` is not modelled. -/
def getSuccsQ (env : EnvQ) (g : GoalConstraintQ) (L : LatticeDataQ) (sid : ℕ) :
    LatticeDataQ × List ℕ × List ℤ :=
  match env.actionSpace with
  | none => (L, [], [])
  | some ap =>
    if sid = L.goalID then (L, [], [])
    else
      let parent := L.states.getD sid dfltState
      match ap parent.state with
      | none => (L, [], [])
      | some acts => succLoopQ env g parent.state acts L

/-- Per-action body of the `GetLazySuccs` loop
(`manip_lattice.cpp:340-385`): no `checkAction`; FK (skip on failure),
grid discretization, goal test, `getOrCreateState` with distance `0.0`,
and the appended (id, cost, false) triple. -/
def lazyStepQ (env : EnvQ) (g : GoalConstraintQ) (a : List (List ℚ))
    (L : LatticeDataQ) : Option (LatticeDataQ × ℕ × ℤ) :=
  let last := a.getLastD []
  let sc := anglesToCoordQ env last
  match computePlanningFrameFKQ env g last with
  | none => none
  | some pose =>
    let endeff := env.worldToGrid (pose.getD 0 0) (pose.getD 1 0) (pose.getD 2 0)
    let isg := isGoalQ env g last pose
    let p := getOrCreateStateQ L sc last 0 endeff
    some (p.2, (if isg then L.goalID else p.1.stateID),
      costQ env (L.states.getD 0 dfltState) p.1 isg)

/-- The action loop of `GetLazySuccs` (every appended edge is tagged
unverified, i.e. `isTrueCost` is `false`). -/
def lazyLoopQ (env : EnvQ) (g : GoalConstraintQ) :
    List (List (List ℚ)) → LatticeDataQ → LatticeDataQ × List ℕ × List ℤ × List Bool
  | [], L => (L, [], [], [])
  | a :: rest, L =>
    match lazyStepQ env g a L with
    | none => lazyLoopQ env g rest L
    | some (L1, s, c) =>
      let r := lazyLoopQ env g rest L1
      (r.1, s :: r.2.1, c :: r.2.2.1, false :: r.2.2.2)

/-- `ManipLattice::GetLazySuccs` (`manip_lattice.cpp:287-392`). -/
def getLazySuccsQ (env : EnvQ) (g : GoalConstraintQ) (L : LatticeDataQ) (sid : ℕ) :
    LatticeDataQ × List ℕ × List ℤ × List Bool :=
  match env.actionSpace with
  | none => (L, [], [], [])
  | some ap =>
    if sid = L.goalID then (L, [], [], [])
    else
      let parent := L.states.getD sid dfltState
      match ap parent.state with
      | none => (L, [], [], [])
      | some acts => lazyLoopQ env g acts L

/-- Per-action body of the `GetTrueCost` loop
(`manip_lattice.cpp:432-475`): FK (skip on failure); for a goal edge
keep only actions whose destination satisfies the goal predicate, else
only actions whose destination coordinate equals the child's coordinate;
then `checkAction`; an accepted action's edge cost updates the running
best under strict `<`.  The `getHashEntry` lookup feeding `cost` is
elided because `cost` ignores its entry arguments. -/
def trueCostFoldQ (env : EnvQ) (g : GoalConstraintQ) (parentState : List ℚ)
    (goalEdge : Bool) (childCoord : List ℤ) (best : Option ℤ)
    (a : List (List ℚ)) : Option ℤ :=
  let last := a.getLastD []
  let sc := anglesToCoordQ env last
  match computePlanningFrameFKQ env g last with
  | none => best
  | some pose =>
    if goalEdge ∧ isGoalQ env g last pose = false then best
    else if goalEdge = false ∧ sc ≠ childCoord then best
    else if (checkActionQ env parentState a).1 = false then best
    else
      let c := env.cost_multiplier
      match best with
      | none => some c
      | some bc => if c < bc then some c else some bc

/-- `ManipLattice::GetTrueCost` (`manip_lattice.cpp:396-483`): `-1` when
the action space is absent or enumeration fails, otherwise the best cost
over the accepted actions, `-1` when none is accepted. -/
def getTrueCostQ (env : EnvQ) (g : GoalConstraintQ) (L : LatticeDataQ)
    (pid cid : ℕ) : ℤ :=
  let parent := L.states.getD pid dfltState
  let child := L.states.getD cid dfltState
  match env.actionSpace with
  | none => -1
  | some ap =>
    match ap parent.state with
    | none => -1
    | some acts =>
      let goalEdge := cid = L.goalID
      let best := acts.foldl
        (trueCostFoldQ env g parent.state (decide goalEdge) child.coord) none
      match best with
      | none => -1
      | some b => b

/-- Marking the obtained-or-inserted entry as `m_start_entry`
(`manip_lattice.cpp:804-807`). -/
def startMarkQ (p : LStateQ × LatticeDataQ) : LatticeDataQ :=
  { p.2 with startID := some p.1.stateID }

/-- `ManipLattice::setStart` (`manip_lattice.cpp:760-812`): length
check, planning-frame FK, joint-limit oracle, collision oracle (its
distance is retained), then coordinate and grid cell,
`getOrCreateState`, and the new entry becomes `m_start_entry`. -/
def setStartQ (env : EnvQ) (g : GoalConstraintQ) (L : LatticeDataQ)
    (st : List ℚ) : Option LatticeDataQ :=
  if st.length < env.num_joints then none
  else
    match computePlanningFrameFKQ env g st with
    | none => none
    | some pose =>
      if env.jointLimitsOk st = false then none
      else
        let vr := env.isStateValid st
        if vr.1 = false then none
        else
          let sc := anglesToCoordQ env st
          let endeff := env.worldToGrid (pose.getD 0 0) (pose.getD 1 0) (pose.getD 2 0)
          some (startMarkQ (getOrCreateStateQ L sc st vr.2 endeff))

/-- `ManipLattice::setGoalPosition` (`manip_lattice.cpp:1164-1240`):
argument cardinality checks (each goal must have exactly 7 elements,
each offset 3, each tolerance 6), then the new `m_goal` record, the
target-offset pose and its grid cell, and the re-zeroing of the goal
entry's coordinate.  The near-goal flag, stopwatch and observer
notification are not modelled. -/
def setGoalPositionQ (env : EnvQ) (g : GoalConstraintQ) (L : LatticeDataQ)
    (goals offsets tolerances : List (List ℚ)) :
    Option (GoalConstraintQ × LatticeDataQ) :=
  if goals.isEmpty then none
  else if goals.any (fun gl => gl.length ≠ 7) then none
  else if offsets.length ≠ goals.length then none
  else if offsets.any (fun o => o.length ≠ 3) then none
  else if tolerances.length ≠ goals.length then none
  else if tolerances.any (fun t => t.length ≠ 6) then none
  else
    let g0 := goals.getD 0 []
    let off := offsets.getD 0 []
    let tol := tolerances.getD 0 []
    let g1 : GoalConstraintQ :=
      { g with
        pose := g0
        xyz_offset := (off.getD 0 0, off.getD 1 0, off.getD 2 0)
        xyz_tolerance := (tol.getD 0 0, tol.getD 1 0, tol.getD 2 0)
        rpy_tolerance := (tol.getD 3 0, tol.getD 4 0, tol.getD 5 0)
        type := goalTypeOfInt (cTrunc (g0.getD 6 0)) }
    let topose := getTargetOffsetPoseQ env g1 g1.pose
    let g2 : GoalConstraintQ :=
      { g1 with
        tgt_off_pose := topose
        xyz := env.worldToGrid (topose.getD 0 0) (topose.getD 1 0) (topose.getD 2 0) }
    let L1 : LatticeDataQ :=
      { L with
        states := L.states.map fun s =>
          if s.stateID = L.goalID then
            { s with coord := s.coord.mapIdx fun i c => if i < env.num_joints then 0 else c }
          else s }
    some (g2, L1)

/-- `ManipLattice::setGoalConfiguration` (`manip_lattice.cpp:1243-1274`):
FK of the goal configuration, a synthesized single pose goal with a zero
offset and tolerance `0.05` on all six axes via `setGoalPosition`, then
the retained joint target, tolerances and the `JOINT_STATE_GOAL` tag. -/
def setGoalConfigurationQ (env : EnvQ) (g : GoalConstraintQ) (L : LatticeDataQ)
    (goal goal_tolerances : List ℚ) : Option (GoalConstraintQ × LatticeDataQ) :=
  match computePlanningFrameFKQ env g goal with
  | none => none
  | some pose =>
    match setGoalPositionQ env g L [pose] [[0, 0, 0]]
        [List.replicate 6 (1 / 20)] with
    | none => none
    | some (g1, L1) =>
      some ({ g1 with
        angles := goal
        angle_tolerances := goal_tolerances
        type := GoalTypeQ.JOINT_STATE_GOAL }, L1)

/-- `ManipLattice::StateID2Angles` (`manip_lattice.cpp:1276-1293`):
fails out of range and on the reserved goal entry. -/
def stateID2AnglesQ (L : LatticeDataQ) (sid : ℕ) : Option (List ℚ) :=
  if L.states.length ≤ sid then none
  else if sid = L.goalID then none
  else some ((L.states.getD sid dfltState).state)

/-- Goal re-synthesis block of `ManipLattice::extractPath`
(`manip_lattice.cpp:960-1011`): over the actions from the previous
state, skip FK failures, non-goal destinations and `checkAction`
failures; the running best edge cost is updated under strict `<`,
remembering the hash entry at the destination coordinate; the emitted
configuration is that entry's stored state.  A missing entry
(`assert(succ_entry)` in the source) is modelled as failure. -/
def exgcFoldQ (env : EnvQ) (g : GoalConstraintQ) (L : LatticeDataQ)
    (prevState : List ℚ) (best : Option (ℤ × Option LStateQ))
    (a : List (List ℚ)) : Option (ℤ × Option LStateQ) :=
  let last := a.getLastD []
  match computePlanningFrameFKQ env g last with
  | none => best
  | some pose =>
    if isGoalQ env g last pose = false then best
    else if (checkActionQ env prevState a).1 = false then best
    else
      let e := getHashEntryQ L (anglesToCoordQ env last)
      let c := env.cost_multiplier
      match best with
      | none => some (c, e)
      | some (bc, be) => if c < bc then some (c, e) else some (bc, be)

/-- Goal re-synthesis block of `ManipLattice::extractPath`, continued:
the fold over the actions with the running best, then the emitted stored
configuration. -/
def extractGoalConfigQ (env : EnvQ) (g : GoalConstraintQ) (L : LatticeDataQ)
    (acts : List (List (List ℚ))) (prevState : List ℚ) : Option (List ℚ) :=
  match acts.foldl (exgcFoldQ env g L prevState) none with
  | none => none
  | some (_, none) => none
  | some (_, some e) => some e.state

/-- One emitted configuration of the `extractPath` loop
(`manip_lattice.cpp:951-1022`): the goal
re-synthesis when the current ID is the reserved goal entry, otherwise
the stored configuration via `StateID2Angles`. -/
def extractPointQ (env : EnvQ) (g : GoalConstraintQ) (L : LatticeDataQ)
    (ap : List ℚ → Option (List (List (List ℚ)))) (prev cur : ℕ) :
    Option (List ℚ) :=
  if cur = L.goalID then
    match ap ((L.states.getD prev dfltState).state) with
    | none => none
    | some acts =>
      extractGoalConfigQ env g L acts ((L.states.getD prev dfltState).state)
  else stateID2AnglesQ L cur

def extractLoopQ (env : EnvQ) (g : GoalConstraintQ) (L : LatticeDataQ)
    (ap : List ℚ → Option (List (List (List ℚ)))) :
    ℕ → List ℕ → Option (List (List ℚ))
  | _, [] => some []
  | prev, cur :: rest =>
    if prev = L.goalID then none
    else
      match extractPointQ env g L ap prev cur with
      | none => none
      | some p =>
        match extractLoopQ env g L ap cur rest with
        | none => none
        | some ps => some (p :: ps)

/-- `ManipLattice::extractPath` (`manip_lattice.cpp:897-1027`).  The
length-0 case indexes out of bounds in the source; the spec says it
fails, and it is modelled as failure. -/
def extractPathQ (env : EnvQ) (g : GoalConstraintQ) (L : LatticeDataQ)
    (idpath : List ℕ) : Option (List (List ℚ)) :=
  match idpath with
  | [] => none
  | first :: rest =>
    if rest.isEmpty then
      if first = L.goalID then
        match L.startID with
        | none => none
        | some s => (stateID2AnglesQ L s).map fun a => [a]
      else (stateID2AnglesQ L first).map fun a => [a]
    else
      if first = L.goalID then none
      else
        match stateID2AnglesQ L first with
        | none => none
        | some a0 =>
          match env.actionSpace with
          | none => none
          | some ap =>
            match extractLoopQ env g L ap first rest with
            | none => none
            | some ps => some (a0 :: ps)

/-- Minimum of a cost list, `-1` when the list is empty (the sentinel of
`GetTrueCost`). -/
def minListD : List ℤ → ℤ
  | [] => -1
  | c :: rest => rest.foldl min c

/-- Qualification of an action exactly as claim C2 words it: reach the
child (goal predicate for the goal entry, destination-coordinate
equality otherwise) and pass `check_action`.  The coordinate branch
renders the claim's words verbatim, with no FK condition.  The
goal-entry branch evaluates `is_goal` on the planning-frame FK pose of
the last waypoint, because `is_goal` takes the pose as an argument, and
is `false` when FK yields no pose; the counterexample exercises only
the coordinate branch. -/
def trueCostQualClaim (env : EnvQ) (g : GoalConstraintQ) (parentState : List ℚ)
    (goalEdge : Bool) (childCoord : List ℤ) (a : List (List ℚ)) : Bool :=
  (if goalEdge then
    match computePlanningFrameFKQ env g (a.getLastD []) with
    | none => false
    | some pose => isGoalQ env g (a.getLastD []) pose
   else decide (anglesToCoordQ env (a.getLastD []) = childCoord))
  && (checkActionQ env parentState a).1

/-- Claim C2 as stated: the minimum edge cost over qualifying actions,
`-1` when none qualifies or the action space is absent or fails. -/
def trueCostClaimQ (env : EnvQ) (g : GoalConstraintQ) (L : LatticeDataQ)
    (pid cid : ℕ) : ℤ :=
  let parent := L.states.getD pid dfltState
  let child := L.states.getD cid dfltState
  match env.actionSpace with
  | none => -1
  | some ap =>
    match ap parent.state with
    | none => -1
    | some acts =>
      minListD ((acts.filter
        (trueCostQualClaim env g parent.state (decide (cid = L.goalID)) child.coord)).map
        fun _ => env.cost_multiplier)

/-- Qualification of an action under the amended claim C2: additionally
the planning-frame FK of the last waypoint must succeed (the source
skips FK failures before either reach test). -/
def trueCostQualAmended (env : EnvQ) (g : GoalConstraintQ) (parentState : List ℚ)
    (goalEdge : Bool) (childCoord : List ℤ) (a : List (List ℚ)) : Bool :=
  match computePlanningFrameFKQ env g (a.getLastD []) with
  | none => false
  | some pose =>
    (if goalEdge then isGoalQ env g (a.getLastD []) pose
     else decide (anglesToCoordQ env (a.getLastD []) = childCoord))
    && (checkActionQ env parentState a).1

/-- Amended claim C2 as a declarative function: minimum edge cost over
the amended-qualifying actions, `-1` when none. -/
def trueCostAmendedQ (env : EnvQ) (g : GoalConstraintQ) (L : LatticeDataQ)
    (pid cid : ℕ) : ℤ :=
  let parent := L.states.getD pid dfltState
  let child := L.states.getD cid dfltState
  match env.actionSpace with
  | none => -1
  | some ap =>
    match ap parent.state with
    | none => -1
    | some acts =>
      minListD ((acts.filter
        (trueCostQualAmended env g parent.state (decide (cid = L.goalID)) child.coord)).map
        fun _ => env.cost_multiplier)

/-- Qualification of an action for the goal re-synthesis of
`extractPath` on a goal transition: FK succeeds, the destination
satisfies the goal predicate, and the action passes `check_action`. -/
def goalSynthQual (env : EnvQ) (g : GoalConstraintQ) (prevState : List ℚ)
    (a : List (List ℚ)) : Bool :=
  (match computePlanningFrameFKQ env g (a.getLastD []) with
   | none => false
   | some pose => isGoalQ env g (a.getLastD []) pose)
  && (checkActionQ env prevState a).1

/-- Claim C3 as stated: the emitted configuration is the last waypoint
of the minimum-cost qualifying action.  All edge costs equal the
constant cost multiplier, so the minimum-cost qualifying action is the
first qualifying one (the source keeps the earliest under strict `<`). -/
def claimGoalEmitQ (env : EnvQ) (g : GoalConstraintQ) (prevState : List ℚ)
    (acts : List (List (List ℚ))) : Option (List ℚ) :=
  ((acts.filter (goalSynthQual env g prevState)).head?).map fun a => a.getLastD []

/-- Amended claim C3 as a declarative function: the stored configuration
of the coord-table entry at the destination coordinate of the first
(minimum-cost) qualifying action; failure when no action qualifies or
the table has no entry at that coordinate. -/
def goalReSynthSpecQ (env : EnvQ) (g : GoalConstraintQ) (L : LatticeDataQ)
    (acts : List (List (List ℚ))) (prevState : List ℚ) : Option (List ℚ) :=
  match (acts.filter (goalSynthQual env g prevState)).head? with
  | none => none
  | some a =>
    match getHashEntryQ L (anglesToCoordQ env (a.getLastD [])) with
    | none => none
    | some e => some e.state

/-- Concrete witness action list: three one-waypoint actions from the
start configuration `[0]`. -/
def actsW : List (List (List ℚ)) := [[[3 / 10]], [[2 / 5]], [[2]]]

/-- Concrete witness action space: `actsW` from `[0]`, nothing
elsewhere. -/
def apW : List ℚ → Option (List (List (List ℚ))) :=
  fun st => some (if st = [(0 : ℚ)] then actsW else [])

/-- Concrete witness FK oracle: the origin pose for every
configuration. -/
def fkW : List ℚ → Option (List ℚ) := fun _ => some [0, 0, 0, 0, 0, 0]

/-- Concrete witness environment: one non-continuous joint with limits
`[-10, 10]`, resolution 1, cost multiplier 1000, all oracles trivially
permissive. -/
def envW : EnvQ :=
  { num_joints := 1
    coord_delta := [1]
    coord_vals := [21]
    cost_multiplier := 1000
    min_limits := [-10]
    max_limits := [10]
    continuous := [false]
    piq := 3
    fkIface := some fkW
    jointLimitsOk := fun _ => true
    isStateValid := fun _ => (true, 0)
    isStateToStateValid := fun _ _ => (true, 0)
    worldToGrid := fun _ _ _ => (0, 0, 0)
    actionSpace := some apW
    sinq := fun _ => 0
    cosq := fun _ => 0
    arccosq := fun _ => 0 }

/-- Concrete witness joint-state goal: target `[2/5]` with tolerance
`1/20`.  The destination `[3/10]` of the first action misses it, the
destination `[2/5]` of the second action meets it. -/
def gW : GoalConstraintQ :=
  { type := GoalTypeQ.JOINT_STATE_GOAL
    pose := []
    tgt_off_pose := []
    xyz_offset := (0, 0, 0)
    xyz_tolerance := (0, 0, 0)
    rpy_tolerance := (0, 0, 0)
    xyz := (0, 0, 0)
    angles := [2 / 5]
    angle_tolerances := [1 / 20] }

/-- Witness lattice: the freshly constructed lattice after
`setStart([0])` succeeds (goal entry 0 plus start entry 1). -/
def latW : LatticeDataQ :=
  (setStartQ envW gW (initLatticeQ envW) [0]).getD (initLatticeQ envW)

/-- FK oracle for the C2 counterexample: fails exactly on the
configuration `[2/5]`, succeeds elsewhere. -/
def fkC2 : List ℚ → Option (List ℚ) :=
  fun q => if q = [(2 : ℚ) / 5] then none else some [0, 0, 0, 0, 0, 0]

/-- Action space for the C2 counterexample. -/
def apC2 : List ℚ → Option (List (List (List ℚ))) :=
  fun st =>
    some (if st = [(5 : ℚ)] then [[[7 / 20]], [[2]]]
      else if st = [(2 : ℚ)] then [[[2 / 5]]] else [])

/-- Environment for the C2 counterexample. -/
def envC2 : EnvQ := { envW with fkIface := some fkC2, actionSpace := some apC2 }

/-- Unreachable joint-state goal for the C2 counterexample (target 99
with zero tolerance), so no successor is ever goal-labeled. -/
def gC2 : GoalConstraintQ := { gW with angles := [99], angle_tolerances := [0] }

/-- C2 counterexample lattice, reached by `setStart([5])` followed by
one `GetSuccs` expansion of the start state: states 0 (goal), 1 (start
`[5]`), 2 (`[7/20]`, coord `[10]`) and 3 (`[2]`, coord `[12]`). -/
def latC2 : LatticeDataQ :=
  (getSuccsQ envC2 gC2
    ((setStartQ envC2 gC2 (initLatticeQ envC2) [5]).getD (initLatticeQ envC2)) 1).1

/-- Environment for the C6 witness: one continuous joint, resolution 1,
6 bins, with the rational stand-in `piq = 3` for `π` (so that
`coord_vals * delta = 2 * piq`). -/
def envW6 : EnvQ := { envW with continuous := [true], coord_vals := [6] }
set_option maxRecDepth 8000

theorem find?_append_some {α : Type} (p : α → Bool) (l1 l2 : List α) (e : α)
    (h : l1.find? p = some e) : (l1 ++ l2).find? p = some e := by
  induction l1 with
  | nil => simp [List.find?] at h
  | cons a as ih =>
    by_cases hp : p a = true
    · rw [List.find?_cons_of_pos _ hp] at h
      rw [List.cons_append, List.find?_cons_of_pos _ hp]
      exact h
    · rw [List.find?_cons_of_neg _ hp] at h
      rw [List.cons_append, List.find?_cons_of_neg _ hp]
      exact ih h

theorem find?_append_none {α : Type} (p : α → Bool) (l1 l2 : List α)
    (h : l1.find? p = none) : (l1 ++ l2).find? p = l2.find? p := by
  induction l1 with
  | nil => simp
  | cons a as ih =>
    by_cases hp : p a = true
    · rw [List.find?_cons_of_pos _ hp] at h
      exact absurd h (by simp)
    · rw [List.find?_cons_of_neg _ hp] at h
      rw [List.cons_append, List.find?_cons_of_neg _ hp]
      exact ih h

theorem getHashEntryQ_mono (L : LatticeDataQ) (t : List LStateQ) (c : List ℤ)
    (e : LStateQ) (h : getHashEntryQ L c = some e) (L' : LatticeDataQ)
    (hs : L'.states = L.states ++ t) : getHashEntryQ L' c = some e := by
  unfold getHashEntryQ at h ⊢
  rw [hs]
  exact find?_append_some _ _ _ _ h

theorem getOrCreateStateQ_spec (L : LatticeDataQ) (c : List ℤ) (st : List ℚ)
    (d : ℚ) (x : ℤ × ℤ × ℤ) :
    (∃ t, (getOrCreateStateQ L c st d x).2.states = L.states ++ t)
    ∧ (getOrCreateStateQ L c st d x).2.goalID = L.goalID
    ∧ (getOrCreateStateQ L c st d x).2.startID = L.startID
    ∧ getHashEntryQ (getOrCreateStateQ L c st d x).2 c
        = some (getOrCreateStateQ L c st d x).1 := by
  unfold getOrCreateStateQ
  cases h : getHashEntryQ L c with
  | some e =>
    exact ⟨⟨[], by simp⟩, rfl, rfl, h⟩
  | none =>
    unfold createHashEntryQ
    refine ⟨⟨_, rfl⟩, rfl, rfl, ?_⟩
    unfold getHashEntryQ at h ⊢
    simp only
    rw [find?_append_none _ _ _ h]
    simp [List.find?]

theorem getSuccsQ_goal_eq (env : EnvQ) (g : GoalConstraintQ) (L : LatticeDataQ) :
    getSuccsQ env g L L.goalID = (L, [], []) := by
  unfold getSuccsQ
  cases env.actionSpace <;> simp

/-- Claim C9: `GetSuccs` invoked on the reserved goal entry's state ID
produces empty successor and cost lists, and leaves the state table
unchanged (the goal state is absorbing). -/
theorem c9_goal_absorbing (env : EnvQ) (g : GoalConstraintQ) (L : LatticeDataQ) :
    getSuccsQ env g L L.goalID = (L, [], []) :=
  getSuccsQ_goal_eq env g L

/-- Claim C8 exhibit: in the freshly constructed lattice, looking up the
all-zero coordinate in the coord-to-state table returns the reserved
goal entry itself (`createHashEntry` inserted it at construction), for
every environment. -/
theorem c8_goal_entry_in_table (env : EnvQ) :
    getHashEntryQ (initLatticeQ env) (List.replicate env.num_joints 0)
        = some { stateID := 0, coord := List.replicate env.num_joints 0,
                 state := [], xyz := (0, 0, 0), dist := 0 }
    ∧ (initLatticeQ env).goalID = 0 := by
  constructor
  · simp [initLatticeQ, createHashEntryQ, getHashEntryQ, List.find?]
  · rfl

theorem fk_envW_eval (st : List ℚ) :
    computePlanningFrameFKQ envW gW st = some [0, 0, 0, 0, 0, 0] := by
  norm_num [computePlanningFrameFKQ, envW, fkW, rotZYXApply, gW]

/-- Claim C4 exhibit: with an FK oracle that succeeds (returning the
six-element pose the robot-model contract specifies),
`setGoalConfiguration` still returns failure, because the synthesized
goal vector has 6 elements while `setGoalPosition` requires exactly 7
elements per goal. -/
theorem c4_setGoalConfiguration_always_fails :
    computePlanningFrameFKQ envW gW [0] = some [0, 0, 0, 0, 0, 0]
    ∧ setGoalConfigurationQ envW gW (initLatticeQ envW) [0] [1 / 10] = none := by
  refine ⟨fk_envW_eval [0], ?_⟩
  simp [setGoalConfigurationQ, setGoalPositionQ, fk_envW_eval]

theorem floor_21_2 : ⌊(21/2 : ℚ)⌋ = 10 := by rw [Int.floor_eq_iff]; norm_num

theorem floor_54_5 : ⌊(54/5 : ℚ)⌋ = 10 := by rw [Int.floor_eq_iff]; norm_num

theorem floor_109_10 : ⌊(109/10 : ℚ)⌋ = 10 := by rw [Int.floor_eq_iff]; norm_num

theorem floor_25_2 : ⌊(25/2 : ℚ)⌋ = 12 := by rw [Int.floor_eq_iff]; norm_num

theorem floor_31_2 : ⌊(31/2 : ℚ)⌋ = 15 := by rw [Int.floor_eq_iff]; norm_num

theorem floor_217_20 : ⌊(217/20 : ℚ)⌋ = 10 := by rw [Int.floor_eq_iff]; norm_num

theorem setStart_envW_eval : setStartQ envW gW (initLatticeQ envW) [0] =
    some { states := [{ stateID := 0, coord := [0], state := [], xyz := (0,0,0), dist := 0 },
                      { stateID := 1, coord := [10], state := [0], xyz := (0,0,0), dist := 0 }],
           goalID := 0, startID := some 1 } := by
  norm_num [setStartQ, computePlanningFrameFKQ, envW, fkW, rotZYXApply, gW, initLatticeQ,
    createHashEntryQ, getOrCreateStateQ, getHashEntryQ, anglesToCoordQ, angleToCoord1,
    cTrunc, startMarkQ, List.find?, List.range_succ, floor_21_2]

theorem latW_eval : latW =
    { states := [{ stateID := 0, coord := [0], state := [], xyz := (0,0,0), dist := 0 },
                 { stateID := 1, coord := [10], state := [0], xyz := (0,0,0), dist := 0 }],
      goalID := 0, startID := some 1 } := by
  rw [latW, setStart_envW_eval]; rfl

theorem getSuccs_envW_eval : getSuccsQ envW gW latW 1 =
    ({ states := [{ stateID := 0, coord := [0], state := [], xyz := (0,0,0), dist := 0 },
                  { stateID := 1, coord := [10], state := [0], xyz := (0,0,0), dist := 0 },
                  { stateID := 2, coord := [12], state := [2], xyz := (0,0,0), dist := 0 }],
       goalID := 0, startID := some 1 }, [1, 0, 2], [1000, 1000, 1000]) := by
  rw [latW_eval]
  norm_num [getSuccsQ, succLoopQ, succStepQ, actsW, apW, envW, gW, fkW,
    computePlanningFrameFKQ, rotZYXApply, anglesToCoordQ, angleToCoord1, cTrunc,
    getOrCreateStateQ, getHashEntryQ, createHashEntryQ, checkActionQ, segCheckQ,
    isGoalQ, costQ, List.find?, List.range_succ, floor_54_5, floor_109_10, floor_25_2,
    Nat.lt_one_iff, abs_of_nonneg]

theorem trueCostFoldQ_eq (env : EnvQ) (g : GoalConstraintQ) (ps : List ℚ)
    (ge : Bool) (cc : List ℤ) (best : Option ℤ) (a : List (List ℚ)) :
    trueCostFoldQ env g ps ge cc best a =
      if trueCostQualAmended env g ps ge cc a then
        (match best with
         | none => some env.cost_multiplier
         | some bc => if env.cost_multiplier < bc then some env.cost_multiplier
             else some bc)
      else best := by
  rcases hfk : computePlanningFrameFKQ env g (a.getLastD []) with _ | pose <;>
    simp only [trueCostFoldQ, trueCostQualAmended, hfk]
  · simp
  · cases ge with
    | false =>
      by_cases hsc : anglesToCoordQ env (a.getLast?.getD []) = cc
      · cases hc : (checkActionQ env ps a).1 <;> simp [hsc, hc]
      · simp [hsc]
    | true =>
      cases hg : isGoalQ env g (a.getLast?.getD []) pose <;>
        cases hc : (checkActionQ env ps a).1 <;> simp [hg, hc]

theorem foldBest_const (env : EnvQ) (g : GoalConstraintQ) (ps : List ℚ)
    (ge : Bool) (cc : List ℤ) (acts : List (List (List ℚ))) :
    acts.foldl (trueCostFoldQ env g ps ge cc) (some env.cost_multiplier)
      = some env.cost_multiplier := by
  induction acts with
  | nil => rfl
  | cons a rest ih =>
    rw [List.foldl_cons, trueCostFoldQ_eq]
    split
    · simp only
      rw [if_neg (lt_irrefl _)]
      exact ih
    · exact ih

theorem foldBest_none (env : EnvQ) (g : GoalConstraintQ) (ps : List ℚ)
    (ge : Bool) (cc : List ℤ) (acts : List (List (List ℚ))) :
    acts.foldl (trueCostFoldQ env g ps ge cc) none =
      if acts.any (trueCostQualAmended env g ps ge cc) then
        some env.cost_multiplier
      else none := by
  induction acts with
  | nil => rfl
  | cons a rest ih =>
    rw [List.foldl_cons, trueCostFoldQ_eq]
    cases hq : trueCostQualAmended env g ps ge cc a with
    | true => simp [hq, foldBest_const]
    | false => simp [hq, ih]

theorem foldl_min_const {α : Type} (m : ℤ) (l : List α) :
    ((l.map fun _ => m).foldl min m) = m := by
  induction l with
  | nil => rfl
  | cons a rest ih => simpa using ih

theorem minListD_filter_const {α : Type} (q : α → Bool) (l : List α) (m : ℤ) :
    minListD ((l.filter q).map fun _ => m) = if l.any q then m else -1 := by
  induction l with
  | nil => rfl
  | cons a rest ih =>
    cases hq : q a with
    | false => simpa [List.filter_cons, hq, List.any_cons] using ih
    | true =>
      simp only [List.filter_cons, hq, if_pos, List.any_cons, List.map_cons,
        minListD, Bool.true_or, if_true, cond_true]
      exact foldl_min_const m _

/-- Claim C2 (amended): `GetTrueCost(parent, child)` returns the minimum
edge cost over all actions enumerated from the parent's configuration
whose planning-frame FK succeeds, which reach the child (goal predicate
for the reserved goal entry, destination-coordinate equality otherwise)
and which pass `check_action`; it returns `-1` when no action qualifies,
including when the action space is absent or fails. -/
theorem c2_getTrueCost_min (env : EnvQ) (g : GoalConstraintQ) (L : LatticeDataQ)
    (pid cid : ℕ) : getTrueCostQ env g L pid cid = trueCostAmendedQ env g L pid cid := by
  unfold getTrueCostQ trueCostAmendedQ
  cases env.actionSpace with
  | none => rfl
  | some ap =>
    simp only
    cases ap (L.states.getD pid dfltState).state with
    | none => rfl
    | some acts =>
      simp only [foldBest_none, minListD_filter_const]
      cases acts.any (trueCostQualAmended env g (L.states.getD pid dfltState).state
          (decide (cid = L.goalID)) (L.states.getD cid dfltState).coord) <;> simp

theorem setStart_envC2_eval : setStartQ envC2 gC2 (initLatticeQ envC2) [5] =
    some { states := [{ stateID := 0, coord := [0], state := [], xyz := (0,0,0), dist := 0 },
                      { stateID := 1, coord := [15], state := [5], xyz := (0,0,0), dist := 0 }],
           goalID := 0, startID := some 1 } := by
  norm_num [setStartQ, computePlanningFrameFKQ, envC2, envW, fkC2, rotZYXApply, gC2, gW,
    initLatticeQ, createHashEntryQ, getOrCreateStateQ, getHashEntryQ, anglesToCoordQ,
    angleToCoord1, cTrunc, startMarkQ, List.find?, List.range_succ, floor_31_2]

theorem latC2_eval : latC2 =
    { states := [{ stateID := 0, coord := [0], state := [], xyz := (0,0,0), dist := 0 },
                 { stateID := 1, coord := [15], state := [5], xyz := (0,0,0), dist := 0 },
                 { stateID := 2, coord := [10], state := [7/20], xyz := (0,0,0), dist := 0 },
                 { stateID := 3, coord := [12], state := [2], xyz := (0,0,0), dist := 0 }],
      goalID := 0, startID := some 1 } := by
  rw [latC2, setStart_envC2_eval]
  norm_num [getSuccsQ, succLoopQ, succStepQ, apC2, envC2, envW, gC2, gW, fkC2,
    computePlanningFrameFKQ, rotZYXApply, anglesToCoordQ, angleToCoord1, cTrunc,
    getOrCreateStateQ, getHashEntryQ, createHashEntryQ, checkActionQ, segCheckQ,
    isGoalQ, costQ, List.find?, List.range_succ, floor_217_20, floor_25_2,
    Nat.lt_one_iff, abs_of_nonpos]

/-- Claim C2 counterexample: in the lattice `latC2` (reached by
`setStart([5])` and one expansion), the transition from state 3 (`[2]`)
to state 2 (coordinate `[10]`) is reachable by the single enumerated
action with destination `[2/5]`: that action qualifies exactly as the
claim words it (`trueCostQualClaim` — destination coordinate equals the
child's coordinate and `check_action` passes), so the claim as stated
demands the minimum edge cost 1000; but the planning-frame FK of `[2/5]`
fails and the source skips the action before the coordinate test
(`manip_lattice.cpp:438-441`), so `GetTrueCost` returns `-1`, and the
two results disagree. -/
theorem c2_counterexample :
    getTrueCostQ envC2 gC2 latC2 3 2 = -1
    ∧ trueCostClaimQ envC2 gC2 latC2 3 2 = 1000
    ∧ computePlanningFrameFKQ envC2 gC2 [2 / 5] = none
    ∧ apC2 ((latC2.states.getD 3 dfltState).state) = some [[[2 / 5]]]
    ∧ trueCostQualClaim envC2 gC2 ((latC2.states.getD 3 dfltState).state) false
        ((latC2.states.getD 2 dfltState).coord) [[2 / 5]] = true
    ∧ getTrueCostQ envC2 gC2 latC2 3 2 ≠ trueCostClaimQ envC2 gC2 latC2 3 2 := by
  have h1 : getTrueCostQ envC2 gC2 latC2 3 2 = -1 := by
    rw [latC2_eval]
    norm_num [getTrueCostQ, trueCostFoldQ, apC2, envC2, envW, fkC2,
      computePlanningFrameFKQ]
  have h2 : trueCostClaimQ envC2 gC2 latC2 3 2 = 1000 := by
    rw [latC2_eval]
    norm_num [trueCostClaimQ, trueCostQualClaim, apC2, envC2, envW, fkC2, gC2, gW,
      computePlanningFrameFKQ, anglesToCoordQ, angleToCoord1, cTrunc, checkActionQ,
      segCheckQ, minListD, List.find?, List.range_succ, floor_109_10]
  refine ⟨h1, h2, ?_, ?_, ?_, ?_⟩
  · norm_num [computePlanningFrameFKQ, envC2, envW, fkC2]
  · rw [latC2_eval]
    norm_num [apC2]
  · rw [latC2_eval]
    norm_num [trueCostQualClaim, envC2, envW, gC2, gW, fkC2,
      computePlanningFrameFKQ, anglesToCoordQ, angleToCoord1, cTrunc, checkActionQ,
      segCheckQ, List.find?, List.range_succ, floor_109_10]
  · rw [h1, h2]
    decide

theorem succStepQ_some (env : EnvQ) (g : GoalConstraintQ) (ps : List ℚ)
    (a : List (List ℚ)) (L L1 : LatticeDataQ) (s : ℕ) (c : ℤ)
    (h : succStepQ env g ps a L = some (L1, s, c)) :
    (checkActionQ env ps a).1 = true ∧
    ∃ pose, computePlanningFrameFKQ env g (a.getLastD []) = some pose ∧
      L1 = (getOrCreateStateQ L (anglesToCoordQ env (a.getLastD [])) (a.getLastD [])
            (checkActionQ env ps a).2
            (env.worldToGrid (pose.getD 0 0) (pose.getD 1 0) (pose.getD 2 0))).2 ∧
      s = (if isGoalQ env g (a.getLastD []) pose then L.goalID
           else (getOrCreateStateQ L (anglesToCoordQ env (a.getLastD [])) (a.getLastD [])
            (checkActionQ env ps a).2
            (env.worldToGrid (pose.getD 0 0) (pose.getD 1 0) (pose.getD 2 0))).1.stateID) := by
  simp only [succStepQ] at h
  by_cases hcheck : (checkActionQ env ps a).1 = false
  · rw [if_pos hcheck] at h
    exact absurd h (by simp)
  · rw [if_neg hcheck] at h
    refine ⟨by simpa using hcheck, ?_⟩
    rcases hfk : computePlanningFrameFKQ env g (a.getLastD []) with _ | pose
    · rw [hfk] at h
      exact absurd h (by simp)
    · rw [hfk] at h
      simp only [Option.some.injEq, Prod.mk.injEq] at h
      exact ⟨pose, rfl, h.1.symm, h.2.1.symm⟩

theorem succLoopQ_sound (env : EnvQ) (g : GoalConstraintQ) (ps : List ℚ) :
    ∀ (acts : List (List (List ℚ))) (L : LatticeDataQ),
    (succLoopQ env g ps acts L).1.goalID = L.goalID
    ∧ (∃ t, (succLoopQ env g ps acts L).1.states = L.states ++ t)
    ∧ ∀ k, k < (succLoopQ env g ps acts L).2.1.length →
        ∃ a ∈ acts, (checkActionQ env ps a).1 = true ∧
          ∃ pose, computePlanningFrameFKQ env g (a.getLastD []) = some pose ∧
            ((isGoalQ env g (a.getLastD []) pose = true ∧
                (succLoopQ env g ps acts L).2.1.getD k 0 = L.goalID) ∨
             (isGoalQ env g (a.getLastD []) pose = false ∧
                ∃ e, getHashEntryQ (succLoopQ env g ps acts L).1
                    (anglesToCoordQ env (a.getLastD [])) = some e ∧
                  (succLoopQ env g ps acts L).2.1.getD k 0 = e.stateID)) := by
  intro acts
  induction acts with
  | nil =>
    intro L
    refine ⟨rfl, ⟨[], by simp [succLoopQ]⟩, ?_⟩
    intro k hk
    simp [succLoopQ] at hk
  | cons a rest ih =>
    intro L
    rcases hstep : succStepQ env g ps a L with _ | ⟨L1, s, c⟩
    · have hloop : succLoopQ env g ps (a :: rest) L = succLoopQ env g ps rest L := by
        simp only [succLoopQ, hstep]
      rw [hloop]
      obtain ⟨hgid, hst, hk⟩ := ih L
      refine ⟨hgid, hst, ?_⟩
      intro k hkk
      obtain ⟨a', ha', rest'⟩ := hk k hkk
      exact ⟨a', List.mem_cons_of_mem _ ha', rest'⟩
    · have hloop : succLoopQ env g ps (a :: rest) L =
          ((succLoopQ env g ps rest L1).1,
           s :: (succLoopQ env g ps rest L1).2.1,
           c :: (succLoopQ env g ps rest L1).2.2) := by
        simp only [succLoopQ, hstep]
      obtain ⟨hcheck, pose, hfk, hL1, hs⟩ := succStepQ_some env g ps a L L1 s c hstep
      obtain ⟨hoc_t, hoc_gid, _, hoc_find⟩ :=
        getOrCreateStateQ_spec L (anglesToCoordQ env (a.getLastD [])) (a.getLastD [])
          (checkActionQ env ps a).2
          (env.worldToGrid (pose.getD 0 0) (pose.getD 1 0) (pose.getD 2 0))
      obtain ⟨hgid, ⟨t1, hst1⟩, hk⟩ := ih L1
      have hgid' : (succLoopQ env g ps rest L1).1.goalID = L.goalID := by
        rw [hgid, hL1, hoc_gid]
      have hst' : ∃ t, (succLoopQ env g ps rest L1).1.states = L.states ++ t := by
        obtain ⟨t0, hst0⟩ := hoc_t
        exact ⟨t0 ++ t1, by rw [hst1, hL1, hst0, List.append_assoc]⟩
      rw [hloop]
      refine ⟨hgid', hst', ?_⟩
      intro k hkk
      cases k with
      | zero =>
        refine ⟨a, List.mem_cons_self a rest, hcheck, pose, hfk, ?_⟩
        cases hg : isGoalQ env g (a.getLastD []) pose with
        | true =>
          left
          refine ⟨rfl, ?_⟩
          simp only [List.getD_cons_zero]
          rw [hs, if_pos hg]
        | false =>
          right
          refine ⟨rfl, ?_⟩
          refine ⟨(getOrCreateStateQ L (anglesToCoordQ env (a.getLastD [])) (a.getLastD [])
            (checkActionQ env ps a).2
            (env.worldToGrid (pose.getD 0 0) (pose.getD 1 0) (pose.getD 2 0))).1, ?_, ?_⟩
          · exact getHashEntryQ_mono L1 t1 _ _ (by rw [hL1]; exact hoc_find) _ hst1
          · simp only [List.getD_cons_zero]
            rw [hs, if_neg (by rw [hg]; simp)]
      | succ k' =>
        simp only [List.length_cons, Nat.succ_lt_succ_iff] at hkk
        obtain ⟨a', ha', hch', pose', hfk', hbr⟩ := hk k' hkk
        refine ⟨a', List.mem_cons_of_mem _ ha', hch', pose', hfk', ?_⟩
        rcases hbr with ⟨hg', hval⟩ | ⟨hg', e, he, hval⟩
        · left
          refine ⟨hg', ?_⟩
          simp only [List.getD_cons_succ]
          rw [hval, hL1]
          exact hoc_gid
        · right
          exact ⟨hg', e, he, by simpa only [List.getD_cons_succ] using hval⟩

/-- Claim C1: every successor edge `GetSuccs` appends corresponds to an
enumerated action that passed `check_action` from the source
configuration (and whose planning-frame FK succeeded); a successor whose
destination satisfies `is_goal` is reported with the reserved goal
entry's state ID, and a successor whose destination does not satisfy
`is_goal` is reported with the ID of the concrete state stored in the
coord-to-state table for that destination coordinate. -/
theorem c1_getSuccs_sound (env : EnvQ) (g : GoalConstraintQ) (L : LatticeDataQ)
    (sid : ℕ) (ap : List ℚ → Option (List (List (List ℚ))))
    (acts : List (List (List ℚ)))
    (h1 : env.actionSpace = some ap)
    (h2 : ap ((L.states.getD sid dfltState).state) = some acts)
    (k : ℕ) (hk : k < (getSuccsQ env g L sid).2.1.length) :
    ∃ a ∈ acts,
      (checkActionQ env ((L.states.getD sid dfltState).state) a).1 = true ∧
      ∃ pose, computePlanningFrameFKQ env g (a.getLastD []) = some pose ∧
        ((isGoalQ env g (a.getLastD []) pose = true ∧
            (getSuccsQ env g L sid).2.1.getD k 0 = L.goalID) ∨
         (isGoalQ env g (a.getLastD []) pose = false ∧
            ∃ e, getHashEntryQ (getSuccsQ env g L sid).1
                (anglesToCoordQ env (a.getLastD [])) = some e ∧
              (getSuccsQ env g L sid).2.1.getD k 0 = e.stateID)) := by
  by_cases hg : sid = L.goalID
  · rw [hg, getSuccsQ_goal_eq] at hk
    exact absurd hk (by simp)
  · have hrw : getSuccsQ env g L sid
        = succLoopQ env g ((L.states.getD sid dfltState).state) acts L := by
      simp only [getSuccsQ, h1, if_neg hg, h2]
    rw [hrw] at hk ⊢
    exact (succLoopQ_sound env g _ acts L).2.2 k hk

theorem c1_witness :
    envW.actionSpace = some apW
    ∧ apW ((latW.states.getD 1 dfltState).state) = some actsW
    ∧ 1 < (getSuccsQ envW gW latW 1).2.1.length
    ∧ (∃ a ∈ actsW,
        (checkActionQ envW ((latW.states.getD 1 dfltState).state) a).1 = true ∧
        ∃ pose, computePlanningFrameFKQ envW gW (a.getLastD []) = some pose ∧
          ((isGoalQ envW gW (a.getLastD []) pose = true ∧
              (getSuccsQ envW gW latW 1).2.1.getD 1 0 = latW.goalID) ∨
           (isGoalQ envW gW (a.getLastD []) pose = false ∧
              ∃ e, getHashEntryQ (getSuccsQ envW gW latW 1).1
                  (anglesToCoordQ envW (a.getLastD [])) = some e ∧
                (getSuccsQ envW gW latW 1).2.1.getD 1 0 = e.stateID))) := by
  have h2 : apW ((latW.states.getD 1 dfltState).state) = some actsW := by
    rw [latW_eval]; norm_num [apW]
  have hk : 1 < (getSuccsQ envW gW latW 1).2.1.length := by
    rw [getSuccs_envW_eval]; norm_num
  exact ⟨rfl, h2, hk, c1_getSuccs_sound envW gW latW 1 apW actsW rfl h2 1 hk⟩

theorem getOrCreateStateQ_states_cases (L : LatticeDataQ) (c : List ℤ)
    (st : List ℚ) (d : ℚ) (x : ℤ × ℤ × ℤ) :
    (getOrCreateStateQ L c st d x).2.states = L.states
    ∨ ∃ e, e.dist = d ∧ (getOrCreateStateQ L c st d x).2.states = L.states ++ [e] := by
  unfold getOrCreateStateQ
  cases hf : getHashEntryQ L c with
  | some e => left; rfl
  | none => right; exact ⟨_, rfl, rfl⟩

theorem lazyStepQ_some (env : EnvQ) (g : GoalConstraintQ) (a : List (List ℚ))
    (L L1 : LatticeDataQ) (s : ℕ) (c : ℤ)
    (h : lazyStepQ env g a L = some (L1, s, c)) :
    L1.states = L.states ∨ ∃ e, e.dist = 0 ∧ L1.states = L.states ++ [e] := by
  simp only [lazyStepQ] at h
  rcases hfk : computePlanningFrameFKQ env g (a.getLastD []) with _ | pose
  · rw [hfk] at h
    exact absurd h (by simp)
  · rw [hfk] at h
    simp only [Option.some.injEq, Prod.mk.injEq] at h
    rcases getOrCreateStateQ_states_cases L (anglesToCoordQ env (a.getLastD []))
        (a.getLastD []) 0
        (env.worldToGrid (pose.getD 0 0) (pose.getD 1 0) (pose.getD 2 0)) with
      hcase | ⟨e, he, hcase⟩
    · left
      rw [← h.1]
      exact hcase
    · right
      exact ⟨e, he, by rw [← h.1]; exact hcase⟩

theorem lazyLoopQ_dist0 (env : EnvQ) (g : GoalConstraintQ) :
    ∀ (acts : List (List (List ℚ))) (L : LatticeDataQ),
    ∃ t, (lazyLoopQ env g acts L).1.states = L.states ++ t ∧ ∀ e ∈ t, e.dist = 0 := by
  intro acts
  induction acts with
  | nil =>
    intro L
    exact ⟨[], by simp [lazyLoopQ], by simp⟩
  | cons a rest ih =>
    intro L
    rcases hstep : lazyStepQ env g a L with _ | ⟨L1, s, c⟩
    · have hloop : lazyLoopQ env g (a :: rest) L = lazyLoopQ env g rest L := by
        simp only [lazyLoopQ, hstep]
      rw [hloop]
      exact ih L
    · have hloop : (lazyLoopQ env g (a :: rest) L).1 = (lazyLoopQ env g rest L1).1 := by
        simp only [lazyLoopQ, hstep]
      rw [hloop]
      obtain ⟨t1, hst1, hd1⟩ := ih L1
      rcases lazyStepQ_some env g a L L1 s c hstep with hcase | ⟨e, he, hcase⟩
      · exact ⟨t1, by rw [hst1, hcase], hd1⟩
      · refine ⟨e :: t1, by rw [hst1, hcase]; simp, ?_⟩
        intro e' he'
        rcases List.mem_cons.mp he' with rfl | hmem
        · exact he
        · exact hd1 e' hmem

/-- Claim C10: every lattice state first created during `GetLazySuccs`
(i.e. appended beyond the prior table length) has its cached
distance-to-nearest-obstacle field equal to 0, since lazy successor
generation passes the literal `0.0` to `getOrCreateState` and never
consults the collision oracle. -/
theorem c10_lazy_dist_zero (env : EnvQ) (g : GoalConstraintQ) (L : LatticeDataQ)
    (sid i : ℕ) (h1 : L.states.length ≤ i)
    (h2 : i < (getLazySuccsQ env g L sid).1.states.length) :
    ((getLazySuccsQ env g L sid).1.states.getD i dfltState).dist = 0 := by
  rcases hA : env.actionSpace with _ | ap
  · have heq : getLazySuccsQ env g L sid = (L, [], [], []) := by
      simp only [getLazySuccsQ, hA]
    rw [heq] at h2
    have h2' : i < L.states.length := h2
    omega
  · by_cases hg : sid = L.goalID
    · have heq : getLazySuccsQ env g L sid = (L, [], [], []) := by
        simp only [getLazySuccsQ, hA, if_pos hg]
      rw [heq] at h2
      have h2' : i < L.states.length := h2
      omega
    · rcases hap : ap (L.states.getD sid dfltState).state with _ | acts
      · have heq : getLazySuccsQ env g L sid = (L, [], [], []) := by
          simp only [getLazySuccsQ, hA, if_neg hg, hap]
        rw [heq] at h2
        have h2' : i < L.states.length := h2
        omega
      · have heq : (getLazySuccsQ env g L sid).1 = (lazyLoopQ env g acts L).1 := by
          simp only [getLazySuccsQ, hA, if_neg hg, hap]
        rw [heq] at h2 ⊢
        obtain ⟨t, hst, hd⟩ := lazyLoopQ_dist0 env g acts L
        rw [hst] at h2 ⊢
        rw [List.getD_append_right _ _ _ _ h1]
        have hlt : i - L.states.length < t.length := by
          rw [List.length_append] at h2
          omega
        rw [List.getD_eq_getElem _ _ hlt]
        exact hd _ (List.getElem_mem hlt)

theorem getLazySuccs_envW_eval : getLazySuccsQ envW gW latW 1 =
    ({ states := [{ stateID := 0, coord := [0], state := [], xyz := (0,0,0), dist := 0 },
                  { stateID := 1, coord := [10], state := [0], xyz := (0,0,0), dist := 0 },
                  { stateID := 2, coord := [12], state := [2], xyz := (0,0,0), dist := 0 }],
       goalID := 0, startID := some 1 }, [1, 0, 2], [1000, 1000, 1000],
       [false, false, false]) := by
  rw [latW_eval]
  norm_num [getLazySuccsQ, lazyLoopQ, lazyStepQ, actsW, apW, envW, gW, fkW,
    computePlanningFrameFKQ, rotZYXApply, anglesToCoordQ, angleToCoord1, cTrunc,
    getOrCreateStateQ, getHashEntryQ, createHashEntryQ, isGoalQ, costQ, List.find?,
    List.range_succ, floor_54_5, floor_109_10, floor_25_2, Nat.lt_one_iff, abs_of_nonneg]

theorem c10_witness :
    latW.states.length ≤ 2
    ∧ 2 < (getLazySuccsQ envW gW latW 1).1.states.length
    ∧ ((getLazySuccsQ envW gW latW 1).1.states.getD 2 dfltState).dist = 0 := by
  have h1 : latW.states.length ≤ 2 := by rw [latW_eval]; norm_num
  have h2 : 2 < (getLazySuccsQ envW gW latW 1).1.states.length := by
    rw [getLazySuccs_envW_eval]; norm_num
  exact ⟨h1, h2, c10_lazy_dist_zero envW gW latW 1 2 h1 h2⟩

/-- Claim C7: `setStart(q)` returns failure exactly when `q` has fewer
than `N` joint positions, the FK interface is absent or FK fails, the
robot model's joint-limit check rejects `q`, or the collision oracle
reports `q` invalid; otherwise it obtains-or-inserts a state keyed by
`q`'s discrete coordinate carrying `q`, the oracle's reported distance
and the tip grid cell, marks that entry as the start, and returns it. -/
theorem c7_setStart (env : EnvQ) (g : GoalConstraintQ) (L : LatticeDataQ)
    (q : List ℚ) :
    (setStartQ env g L q = none ↔
      q.length < env.num_joints
      ∨ computePlanningFrameFKQ env g q = none
      ∨ env.jointLimitsOk q = false
      ∨ (env.isStateValid q).1 = false)
    ∧ (∀ pose, computePlanningFrameFKQ env g q = some pose →
        env.jointLimitsOk q = true → (env.isStateValid q).1 = true →
        ¬ q.length < env.num_joints →
        setStartQ env g L q =
          some (startMarkQ (getOrCreateStateQ L (anglesToCoordQ env q) q
            (env.isStateValid q).2
            (env.worldToGrid (pose.getD 0 0) (pose.getD 1 0) (pose.getD 2 0))))) := by
  constructor
  · by_cases hlen : q.length < env.num_joints
    · simp [setStartQ, hlen]
    · rcases hfk : computePlanningFrameFKQ env g q with _ | pose
      · simp [setStartQ, hlen, hfk]
      · cases hjl : env.jointLimitsOk q
        · simp [setStartQ, hlen, hfk, hjl]
        · cases hv : (env.isStateValid q).1
          · simp [setStartQ, hlen, hfk, hjl, hv]
          · simp [setStartQ, hlen, hfk, hjl, hv]
  · intro pose hfk hjl hv hlen
    simp [setStartQ, hlen, hfk, hjl, hv]

theorem c7_witness :
    computePlanningFrameFKQ envW gW [0] = some [0, 0, 0, 0, 0, 0]
    ∧ envW.jointLimitsOk [0] = true
    ∧ (envW.isStateValid [0]).1 = true
    ∧ ¬ ([(0 : ℚ)] : List ℚ).length < envW.num_joints
    ∧ setStartQ envW gW (initLatticeQ envW) [0] =
        some (startMarkQ (getOrCreateStateQ (initLatticeQ envW)
          (anglesToCoordQ envW [0]) [0] ((envW.isStateValid [0]).2)
          (envW.worldToGrid (([0, 0, 0, 0, 0, 0] : List ℚ).getD 0 0)
            (([0, 0, 0, 0, 0, 0] : List ℚ).getD 1 0)
            (([0, 0, 0, 0, 0, 0] : List ℚ).getD 2 0)))) := by
  refine ⟨fk_envW_eval [0], rfl, rfl, by norm_num [envW], ?_⟩
  exact (c7_setStart envW gW (initLatticeQ envW) [0]).2 [0, 0, 0, 0, 0, 0]
    (fk_envW_eval [0]) rfl rfl (by norm_num [envW])

theorem cTrunc_nonneg (x : ℚ) (h : 0 ≤ x) : cTrunc x = ⌊x⌋ := if_pos h

theorem getD_range_map {α : Type} (n : ℕ) (f : ℕ → α) (i : ℕ) (d : α)
    (h : i < n) : (((List.range n).map f).getD i d) = f i := by
  rw [List.getD_eq_getElem _ _ (by simpa using h)]
  simp

theorem angleCoord_roundtrip_noncont (minl delta a piq : ℚ) (vals : ℤ)
    (hd : 0 < delta) (hmin : minl ≤ a) :
    |coordToAngle1 false minl delta (angleToCoord1 false minl delta vals piq a) - a|
      ≤ delta / 2 := by
  unfold angleToCoord1 coordToAngle1
  simp only [Bool.false_eq_true, if_false]
  have hx0 : 0 ≤ (a - minl) / delta := div_nonneg (by linarith) hd.le
  rw [cTrunc_nonneg _ (by linarith)]
  set c := ⌊(a - minl) / delta + 1 / 2⌋ with hc
  have h1 : (c : ℚ) ≤ (a - minl) / delta + 1 / 2 := Int.floor_le _
  have h2 : (a - minl) / delta + 1 / 2 < c + 1 := Int.lt_floor_add_one _
  have hne : delta ≠ 0 := ne_of_gt hd
  have ha : a - minl = ((a - minl) / delta) * delta := by field_simp
  have he : minl + (c : ℚ) * delta - a = ((c : ℚ) - (a - minl) / delta) * delta := by
    rw [sub_mul, ← ha]
    ring
  rw [he, abs_mul, abs_of_pos hd]
  have hb : |(c : ℚ) - (a - minl) / delta| ≤ 1 / 2 :=
    abs_le.mpr ⟨by linarith, by linarith⟩
  calc |(c : ℚ) - (a - minl) / delta| * delta ≤ (1 / 2) * delta :=
        mul_le_mul_of_nonneg_right hb hd.le
    _ = delta / 2 := by ring

theorem angleCoord_roundtrip_cont (minl delta a piq : ℚ) (vals : ℤ)
    (hd : 0 < delta) (hpi : 0 < piq) (hv : ((vals : ℤ) : ℚ) * delta = 2 * piq) :
    ∃ k : ℤ,
      |coordToAngle1 true minl delta (angleToCoord1 true minl delta vals piq a) - a
        + (k : ℚ) * (2 * piq)| ≤ delta / 2 := by
  unfold angleToCoord1 coordToAngle1 normAnglePos
  simp only [if_true]
  set K := ⌊a / (2 * piq)⌋ with hK
  have hKle : (K : ℚ) ≤ a / (2 * piq) := Int.floor_le _
  have hKlt : a / (2 * piq) < K + 1 := Int.lt_floor_add_one _
  have hp2 : (0 : ℚ) < 2 * piq := by linarith
  have hpos0 : 0 ≤ a - 2 * piq * (K : ℚ) := by
    have := mul_le_mul_of_nonneg_right hKle hp2.le
    rw [div_mul_cancel₀ _ (ne_of_gt hp2)] at this
    nlinarith
  have hposlt : a - 2 * piq * (K : ℚ) < 2 * piq := by
    have := mul_lt_mul_of_pos_right hKlt hp2
    rw [div_mul_cancel₀ _ (ne_of_gt hp2)] at this
    nlinarith
  set pos := a - 2 * piq * (K : ℚ) with hpos
  rw [cTrunc_nonneg _ (div_nonneg (by nlinarith) hd.le)]
  set c0 := ⌊(pos + delta * (1 / 2)) / delta⌋ with hc0
  have h1 : (c0 : ℚ) ≤ (pos + delta * (1 / 2)) / delta := Int.floor_le _
  have h2 : (pos + delta * (1 / 2)) / delta < c0 + 1 := Int.lt_floor_add_one _
  have hne : delta ≠ 0 := ne_of_gt hd
  have hA : (c0 : ℚ) * delta ≤ pos + delta * (1 / 2) := by
    have := mul_le_mul_of_nonneg_right h1 hd.le
    rwa [div_mul_cancel₀ _ hne] at this
  have hB : pos + delta * (1 / 2) < ((c0 : ℚ) + 1) * delta := by
    have := mul_lt_mul_of_pos_right h2 hd
    rwa [div_mul_cancel₀ _ hne] at this
  by_cases hcv : c0 = vals
  · rw [if_pos hcv]
    refine ⟨K + 1, ?_⟩
    have e1 : ((0 : ℤ) : ℚ) * delta - a + ((K + 1 : ℤ) : ℚ) * (2 * piq)
        = 2 * piq - pos := by
      rw [hpos]
      push_cast
      ring
    rw [e1, abs_of_nonneg (by linarith)]
    have hvle : ((vals : ℤ) : ℚ) * delta ≤ pos + delta * (1 / 2) := by
      rw [← hcv]
      exact hA
    rw [hv] at hvle
    linarith
  · rw [if_neg hcv]
    refine ⟨K, ?_⟩
    have e1 : (c0 : ℚ) * delta - a + (K : ℚ) * (2 * piq) = (c0 : ℚ) * delta - pos := by
      rw [hpos]
      ring
    rw [e1, abs_le]
    constructor <;> nlinarith

/-- Claim C6: for a joint configuration within its per-joint limits
(continuous joints unrestricted), each component of
`coord_to_angles(angles_to_coord(q))` differs from the corresponding
component of `q` by at most `delta/2`, the difference taken modulo `2π`
(i.e. up to an integer multiple of `2 * piq`) for continuous joints;
side conditions: the joint's resolution is positive and, for continuous
joints, the bin count times the resolution is the full circle. -/
theorem c6_coord_roundtrip (env : EnvQ) (q : List ℚ) (i : ℕ)
    (hi : i < q.length)
    (hd : 0 < env.coord_delta.getD i 0)
    (hnc : env.continuous.getD i false = false →
      env.min_limits.getD i 0 ≤ q.getD i 0 ∧ q.getD i 0 ≤ env.max_limits.getD i 0)
    (hc : env.continuous.getD i false = true →
      0 < env.piq ∧
        ((env.coord_vals.getD i 0 : ℤ) : ℚ) * env.coord_delta.getD i 0 = 2 * env.piq) :
    (env.continuous.getD i false = true →
      ∃ k : ℤ,
        |(coordToAnglesQ env (anglesToCoordQ env q)).getD i 0 - q.getD i 0
          + (k : ℚ) * (2 * env.piq)| ≤ env.coord_delta.getD i 0 / 2)
    ∧ (env.continuous.getD i false = false →
      |(coordToAnglesQ env (anglesToCoordQ env q)).getD i 0 - q.getD i 0|
        ≤ env.coord_delta.getD i 0 / 2) := by
  have hlen : (anglesToCoordQ env q).length = q.length := by
    simp [anglesToCoordQ]
  have h1 : (coordToAnglesQ env (anglesToCoordQ env q)).getD i 0
      = coordToAngle1 (env.continuous.getD i false) (env.min_limits.getD i 0)
          (env.coord_delta.getD i 0) ((anglesToCoordQ env q).getD i 0) := by
    unfold coordToAnglesQ
    rw [hlen]
    exact getD_range_map _ _ _ _ hi
  have h2 : (anglesToCoordQ env q).getD i 0
      = angleToCoord1 (env.continuous.getD i false) (env.min_limits.getD i 0)
          (env.coord_delta.getD i 0) (env.coord_vals.getD i 0) env.piq (q.getD i 0) := by
    unfold anglesToCoordQ
    exact getD_range_map _ _ _ _ hi
  rw [h1, h2]
  constructor
  · intro hct
    obtain ⟨hpi, hv⟩ := hc hct
    rw [hct]
    exact angleCoord_roundtrip_cont _ _ _ _ _ hd hpi hv
  · intro hct
    obtain ⟨hmn, _⟩ := hnc hct
    rw [hct]
    exact angleCoord_roundtrip_noncont _ _ _ _ _ hd hmn

theorem c6_witness :
    (0 : ℚ) < envW6.coord_delta.getD 0 0
    ∧ (envW6.continuous.getD 0 false = true →
        0 < envW6.piq ∧
          ((envW6.coord_vals.getD 0 0 : ℤ) : ℚ) * envW6.coord_delta.getD 0 0
            = 2 * envW6.piq)
    ∧ ((envW6.continuous.getD 0 false = true →
        ∃ k : ℤ,
          |(coordToAnglesQ envW6 (anglesToCoordQ envW6 [7 / 2])).getD 0 0
            - ([7 / 2] : List ℚ).getD 0 0 + (k : ℚ) * (2 * envW6.piq)|
            ≤ envW6.coord_delta.getD 0 0 / 2)
      ∧ (envW6.continuous.getD 0 false = false →
        |(coordToAnglesQ envW6 (anglesToCoordQ envW6 [7 / 2])).getD 0 0
            - ([7 / 2] : List ℚ).getD 0 0| ≤ envW6.coord_delta.getD 0 0 / 2)) := by
  refine ⟨by norm_num [envW6, envW], by norm_num [envW6, envW], ?_⟩
  exact c6_coord_roundtrip envW6 [7 / 2] 0 (by norm_num) (by norm_num [envW6, envW])
    (by simp [envW6, envW]) (by norm_num [envW6, envW])

theorem exgcFoldQ_eq (env : EnvQ) (g : GoalConstraintQ) (L : LatticeDataQ)
    (ps : List ℚ) (best : Option (ℤ × Option LStateQ)) (a : List (List ℚ)) :
    exgcFoldQ env g L ps best a =
      if goalSynthQual env g ps a then
        (match best with
         | none => some (env.cost_multiplier,
             getHashEntryQ L (anglesToCoordQ env (a.getLastD [])))
         | some (bc, be) =>
           if env.cost_multiplier < bc then
             some (env.cost_multiplier,
               getHashEntryQ L (anglesToCoordQ env (a.getLastD [])))
           else some (bc, be))
      else best := by
  rcases hfk : computePlanningFrameFKQ env g (a.getLastD []) with _ | pose <;>
    simp only [exgcFoldQ, goalSynthQual, hfk]
  · simp
  · cases hg : isGoalQ env g (a.getLast?.getD []) pose <;>
      cases hc : (checkActionQ env ps a).1 <;> simp [hg, hc]

theorem exgcFold_const (env : EnvQ) (g : GoalConstraintQ) (L : LatticeDataQ)
    (ps : List ℚ) (eo : Option LStateQ) (acts : List (List (List ℚ))) :
    acts.foldl (exgcFoldQ env g L ps) (some (env.cost_multiplier, eo))
      = some (env.cost_multiplier, eo) := by
  induction acts with
  | nil => rfl
  | cons a rest ih =>
    rw [List.foldl_cons, exgcFoldQ_eq]
    split
    · simp only
      rw [if_neg (lt_irrefl _)]
      exact ih
    · exact ih

theorem exgcFold_none (env : EnvQ) (g : GoalConstraintQ) (L : LatticeDataQ)
    (ps : List ℚ) (acts : List (List (List ℚ))) :
    acts.foldl (exgcFoldQ env g L ps) none =
      match (acts.filter (goalSynthQual env g ps)).head? with
      | none => none
      | some a => some (env.cost_multiplier,
          getHashEntryQ L (anglesToCoordQ env (a.getLastD []))) := by
  induction acts with
  | nil => rfl
  | cons a rest ih =>
    rw [List.foldl_cons, exgcFoldQ_eq]
    cases hq : goalSynthQual env g ps a with
    | true => simp [List.filter_cons, hq, exgcFold_const]
    | false => simp [List.filter_cons, hq, ih]

theorem extractGoalConfigQ_eq_spec (env : EnvQ) (g : GoalConstraintQ)
    (L : LatticeDataQ) (acts : List (List (List ℚ))) (ps : List ℚ) :
    extractGoalConfigQ env g L acts ps = goalReSynthSpecQ env g L acts ps := by
  unfold extractGoalConfigQ goalReSynthSpecQ
  rw [exgcFold_none]
  cases (acts.filter (goalSynthQual env g ps)).head? with
  | none => rfl
  | some a =>
    rcases hge : getHashEntryQ L (anglesToCoordQ env (a.getLast?.getD [])) with _ | e <;>
      simp [hge]

theorem extractLoopQ_pos (env : EnvQ) (g : GoalConstraintQ) (L : LatticeDataQ)
    (ap : List ℚ → Option (List (List (List ℚ)))) :
    ∀ (rest : List ℕ) (prev : ℕ) (j : ℕ), j < rest.length →
      rest.getD j 0 = L.goalID →
      (prev :: rest).getD j 0 ≠ L.goalID →
      ∀ out, extractLoopQ env g L ap prev rest = some out →
        ∃ acts,
          ap ((L.states.getD ((prev :: rest).getD j 0) dfltState).state) = some acts ∧
          extractGoalConfigQ env g L acts
              ((L.states.getD ((prev :: rest).getD j 0) dfltState).state)
            = some (out.getD j []) := by
  intro rest
  induction rest with
  | nil =>
    intro prev j hj
    simp at hj
  | cons cur rest' ih =>
    intro prev j hj hgoal hprev out h
    simp only [extractLoopQ] at h
    by_cases hp : prev = L.goalID
    · rw [if_pos hp] at h
      exact absurd h (by simp)
    · rw [if_neg hp] at h
      rcases hpt : extractPointQ env g L ap prev cur with _ | p
      · rw [hpt] at h
        exact absurd h (by simp)
      · rw [hpt] at h
        rcases hloop : extractLoopQ env g L ap cur rest' with _ | ps
        · rw [hloop] at h
          exact absurd h (by simp)
        · rw [hloop] at h
          simp only [Option.some.injEq] at h
          cases j with
          | zero =>
            simp only [List.getD_cons_zero] at hgoal hprev ⊢
            unfold extractPointQ at hpt
            rw [if_pos hgoal] at hpt
            rcases hap2 : ap ((L.states.getD prev dfltState).state) with _ | acts
            · rw [hap2] at hpt
              have hpt' : (none : Option (List ℚ)) = some p := hpt
              exact absurd hpt' (by simp)
            · rw [hap2] at hpt
              have hpt' : extractGoalConfigQ env g L acts
                  ((L.states.getD prev dfltState).state) = some p := hpt
              refine ⟨acts, rfl, ?_⟩
              rw [hpt', ← h]
              simp
          | succ j' =>
            simp only [List.getD_cons_succ] at hgoal hprev ⊢
            have hj' : j' < rest'.length := by simpa using hj
            obtain ⟨acts, ha, hc⟩ := ih cur j' hj' hgoal hprev ps hloop
            refine ⟨acts, ha, ?_⟩
            rw [hc, ← h]
            simp

theorem extractLoopQ_none (env : EnvQ) (g : GoalConstraintQ) (L : LatticeDataQ)
    (ap : List ℚ → Option (List (List (List ℚ)))) :
    ∀ (rest : List ℕ) (prev : ℕ) (j : ℕ), j < rest.length →
      rest.getD j 0 = L.goalID →
      (prev :: rest).getD j 0 ≠ L.goalID →
      (∀ acts, ap ((L.states.getD ((prev :: rest).getD j 0) dfltState).state) = some acts →
        extractGoalConfigQ env g L acts
          ((L.states.getD ((prev :: rest).getD j 0) dfltState).state) = none) →
      extractLoopQ env g L ap prev rest = none := by
  intro rest
  induction rest with
  | nil =>
    intro prev j hj
    simp at hj
  | cons cur rest' ih =>
    intro prev j hj hgoal hprev hnone
    simp only [extractLoopQ]
    by_cases hp : prev = L.goalID
    · rw [if_pos hp]
    · rw [if_neg hp]
      cases j with
      | zero =>
        simp only [List.getD_cons_zero] at hgoal hprev hnone
        have hpt : extractPointQ env g L ap prev cur = none := by
          unfold extractPointQ
          rw [if_pos hgoal]
          rcases hap2 : ap ((L.states.getD prev dfltState).state) with _ | acts
          · rfl
          · exact hnone acts hap2
        rw [hpt]
      | succ j' =>
        simp only [List.getD_cons_succ] at hgoal hprev hnone
        have hj' : j' < rest'.length := by simpa using hj
        have hloop : extractLoopQ env g L ap cur rest' = none :=
          ih cur j' hj' hgoal hprev hnone
        rw [hloop]
        rcases hpt : extractPointQ env g L ap prev cur with _ | p <;> rfl

/-- Claim C3 (amended): in an ID path whose element at position `i ≥ 1`
is the reserved goal ID and whose element at position `i-1` is a
non-goal state, `extractPath` emits at position `i` the configuration
stored in the coord-to-state table at the destination coordinate of the
minimum-cost qualifying action (FK succeeds, destination satisfies
`is_goal`, `check_action` passes; under the constant cost model the
first qualifying action) from the previous state — the bin
representative, which may differ from that action's own last waypoint —
and `extractPath` fails when no action qualifies or the table has no
entry at that coordinate. -/
theorem c3_extractPath_goal (env : EnvQ) (g : GoalConstraintQ) (L : LatticeDataQ)
    (ap : List ℚ → Option (List (List (List ℚ)))) (idpath : List ℕ) (i : ℕ)
    (hap : env.actionSpace = some ap)
    (hi1 : 1 ≤ i) (hi2 : i < idpath.length)
    (hgoal : idpath.getD i 0 = L.goalID)
    (hprev : idpath.getD (i - 1) 0 ≠ L.goalID) :
    (∀ acts ps, extractGoalConfigQ env g L acts ps = goalReSynthSpecQ env g L acts ps)
    ∧ (∀ path, extractPathQ env g L idpath = some path →
        ∃ acts,
          ap ((L.states.getD (idpath.getD (i - 1) 0) dfltState).state) = some acts ∧
          extractGoalConfigQ env g L acts
              ((L.states.getD (idpath.getD (i - 1) 0) dfltState).state)
            = some (path.getD i []))
    ∧ ((∀ acts, ap ((L.states.getD (idpath.getD (i - 1) 0) dfltState).state) = some acts →
          extractGoalConfigQ env g L acts
            ((L.states.getD (idpath.getD (i - 1) 0) dfltState).state) = none) →
        extractPathQ env g L idpath = none) := by
  refine ⟨fun acts ps => extractGoalConfigQ_eq_spec env g L acts ps, ?_⟩
  rcases idpath with _ | ⟨first, rest⟩
  · simp at hi2
  rcases i with _ | j
  · omega
  have hj : j < rest.length := by simpa using hi2
  have hrest : rest.isEmpty = false := by
    cases rest
    · simp at hj
    · rfl
  have hgoal' : rest.getD j 0 = L.goalID := by simpa using hgoal
  have hprev' : (first :: rest).getD j 0 ≠ L.goalID := by simpa using hprev
  have hpick : ((first :: rest).getD (j + 1 - 1) 0) = (first :: rest).getD j 0 := rfl
  rw [hpick]
  by_cases hf : first = L.goalID
  · have hnone : extractPathQ env g L (first :: rest) = none := by
      simp only [extractPathQ, hrest]
      simp [hf]
    constructor
    · intro path h
      rw [hnone] at h
      exact absurd h (by simp)
    · intro _
      exact hnone
  · rcases hs : stateID2AnglesQ L first with _ | a0
    · have hnone : extractPathQ env g L (first :: rest) = none := by
        simp only [extractPathQ, hrest]
        simp [hf, hs]
      constructor
      · intro path h
        rw [hnone] at h
        exact absurd h (by simp)
      · intro _
        exact hnone
    · have hrw : extractPathQ env g L (first :: rest) =
          (match extractLoopQ env g L ap first rest with
           | none => none
           | some ps => some (a0 :: ps)) := by
        simp only [extractPathQ, hrest]
        simp [hf, hs, hap]
      constructor
      · intro path h
        rw [hrw] at h
        rcases hloop : extractLoopQ env g L ap first rest with _ | ps
        · rw [hloop] at h
          exact absurd h (by simp)
        · rw [hloop] at h
          simp only [Option.some.injEq] at h
          obtain ⟨acts, ha, hc⟩ :=
            extractLoopQ_pos env g L ap rest first j hj hgoal' hprev' ps hloop
          refine ⟨acts, ha, ?_⟩
          rw [hc, ← h]
          simp
      · intro hnone
        rw [hrw, extractLoopQ_none env g L ap rest first j hj hgoal' hprev' hnone]

theorem extractGoalConfig_envW_eval :
    extractGoalConfigQ envW gW latW actsW [0] = some [0] := by
  rw [latW_eval]
  norm_num [extractGoalConfigQ, exgcFoldQ, actsW, envW, gW, fkW,
    computePlanningFrameFKQ, rotZYXApply, isGoalQ, checkActionQ, segCheckQ,
    anglesToCoordQ, angleToCoord1, cTrunc, getHashEntryQ, List.find?,
    List.range_succ, floor_54_5, floor_109_10, floor_25_2, Nat.lt_one_iff,
    abs_of_nonneg]

theorem extractPath_envW_eval :
    extractPathQ envW gW latW [1, 0] = some [[0], [0]] := by
  rw [latW_eval]
  norm_num [extractPathQ, extractLoopQ, extractPointQ, extractGoalConfigQ, exgcFoldQ,
    stateID2AnglesQ, apW, actsW, envW, gW, fkW, computePlanningFrameFKQ, rotZYXApply,
    isGoalQ, checkActionQ, segCheckQ, anglesToCoordQ, angleToCoord1, cTrunc,
    getHashEntryQ, List.find?, List.range_succ, floor_54_5, floor_109_10, floor_25_2,
    Nat.lt_one_iff, abs_of_nonneg]

/-- Claim C3 counterexample: in the reachable lattice `latW` (goal entry
0 plus the start `[0]` in bin `[10]`), for the ID path `[1, goal]` the
minimum-cost qualifying action is the one with last waypoint `[2/5]`
(the `[3/10]` action fails `is_goal`), yet `extractPath` emits `[0]` —
the configuration stored in the table for bin `[10]` — not `[2/5]` as
the claim states. -/
theorem c3_counterexample :
    extractPathQ envW gW latW [1, 0] = some [[0], [0]]
    ∧ (latW.states.getD 1 dfltState).state = [0]
    ∧ apW [0] = some actsW
    ∧ claimGoalEmitQ envW gW [0] actsW = some [2 / 5]
    ∧ (([[0], [0]] : List (List ℚ)).getD 1 []) ≠ [2 / 5] := by
  refine ⟨extractPath_envW_eval, by rw [latW_eval]; rfl, by norm_num [apW], ?_,
    by norm_num⟩
  norm_num [claimGoalEmitQ, goalSynthQual, actsW, envW, gW, fkW,
    computePlanningFrameFKQ, rotZYXApply, isGoalQ, checkActionQ, segCheckQ,
    Nat.lt_one_iff, abs_of_nonneg]

theorem c3_witness :
    envW.actionSpace = some apW
    ∧ (1 ≤ 1 ∧ 1 < ([1, 0] : List ℕ).length)
    ∧ ([1, 0] : List ℕ).getD 1 0 = latW.goalID
    ∧ ([1, 0] : List ℕ).getD 0 0 ≠ latW.goalID
    ∧ (∃ acts,
        apW ((latW.states.getD (([1, 0] : List ℕ).getD 0 0) dfltState).state) = some acts ∧
        extractGoalConfigQ envW gW latW acts
            ((latW.states.getD (([1, 0] : List ℕ).getD 0 0) dfltState).state)
          = some (([[0], [0]] : List (List ℚ)).getD 1 [])) := by
  have hgid : latW.goalID = 0 := by rw [latW_eval]
  have hgoal : ([1, 0] : List ℕ).getD 1 0 = latW.goalID := by rw [hgid]; rfl
  have hprev : ([1, 0] : List ℕ).getD 0 0 ≠ latW.goalID := by rw [hgid]; norm_num
  exact ⟨rfl, ⟨le_refl 1, by norm_num⟩, hgoal, hprev,
    (c3_extractPath_goal envW gW latW apW [1, 0] 1 rfl (le_refl 1) (by norm_num)
      hgoal hprev).2.1 [[0], [0]] extractPath_envW_eval⟩

theorem quatFromZYX_id :
    quatFromZYX Real.sin Real.cos 0 0 0 = ((1 : ℝ), 0, 0, 0) := by
  norm_num [quatFromZYX, quatAxisX, quatAxisY, quatAxisZ, quatMul]

theorem quatFromZYX_yawOnly (y : ℝ) :
    quatFromZYX Real.sin Real.cos 0 0 y
      = (Real.cos (y / 2), 0, 0, Real.sin (y / 2)) := by
  norm_num [quatFromZYX, quatAxisX, quatAxisY, quatAxisZ, quatMul]

theorem quatDot_yaw_id (y : ℝ) :
    quatDot (Real.cos y, (0 : ℝ), (0 : ℝ), Real.sin y) ((1 : ℝ), 0, 0, 0)
      = Real.cos y := by
  simp [quatDot]

theorem floor_5_4_real : ⌊(5 / 4 : ℝ)⌋ = 1 := by
  rw [Int.floor_eq_iff]
  norm_num

theorem floor_3_4_real : ⌊(3 / 4 : ℝ)⌋ = 0 := by
  rw [Int.floor_eq_iff]
  norm_num

theorem rotErrCode_c5 :
    rotErrCode Real.sin Real.cos Real.arccos Real.pi
        ([0, 0, 0, 0, 0, 0] : List ℝ) [0, 0, 0, 0, 0, 3 * Real.pi / 2]
      = -(Real.pi / 2) := by
  have hpi := Real.pi_pos
  simp only [rotErrCode, List.getD_cons_zero, List.getD_cons_succ]
  rw [quatFromZYX_id, quatFromZYX_yawOnly, quatDot_yaw_id]
  rw [show (3 * Real.pi / 2) / 2 = 3 * Real.pi / 4 from by ring]
  rw [Real.arccos_cos (by nlinarith) (by nlinarith)]
  rw [show 2 * (3 * Real.pi / 4) = 3 * Real.pi / 2 from by ring]
  unfold normAngleG
  rw [show (3 * Real.pi / 2 + Real.pi) / (2 * Real.pi) = 5 / 4 from by
    field_simp
    ring]
  rw [floor_5_4_real]
  push_cast
  ring

theorem rotErrSpecAbs_c5 :
    rotErrSpecAbs Real.sin Real.cos Real.arccos Real.pi
        ([0, 0, 0, 0, 0, 0] : List ℝ) [0, 0, 0, 0, 0, 3 * Real.pi / 2]
      = Real.pi / 2 := by
  have hpi := Real.pi_pos
  simp only [rotErrSpecAbs, List.getD_cons_zero, List.getD_cons_succ]
  rw [quatFromZYX_id, quatFromZYX_yawOnly, quatDot_yaw_id]
  rw [show (3 * Real.pi / 2) / 2 = 3 * Real.pi / 4 from by ring]
  rw [show (3 * Real.pi / 4) = Real.pi - Real.pi / 4 from by ring, Real.cos_pi_sub]
  rw [abs_neg, abs_of_nonneg (by rw [Real.cos_pi_div_four]; positivity)]
  rw [Real.arccos_cos (by nlinarith) (by nlinarith)]
  rw [show 2 * (Real.pi / 4) = Real.pi / 2 from by ring]
  unfold normAngleG
  rw [show (Real.pi / 2 + Real.pi) / (2 * Real.pi) = 3 / 4 from by
    field_simp
    ring]
  rw [floor_3_4_real]
  push_cast
  ring

/-- Claim C5 exhibit: under a `POSE` goal with target RPY `(0,0,0)`,
exact translation and tolerances `(1,1,1)` / rotation tolerance `1/10`,
the pose with yaw `3π/2` — a rotation error of magnitude `π/2` — is
accepted by `isGoal`: the code computes
`normalize(2·acos(q.dot(qg))) = -π/2` without the absolute value the
claim states, and the strict comparison `-π/2 < 1/10` passes even
though the claim's rotation error `normalize(2·acos(|q.dot(qg)|)) = π/2`
exceeds the tolerance. -/
theorem c5_isGoal_rotation_bug :
    isGoalPoseRPY Real.sin Real.cos Real.arccos Real.pi
        ([0, 0, 0, 0, 0, 0] : List ℝ) (1, 1, 1) (1 / 10, 1 / 10, 1 / 10)
        [0, 0, 0, 0, 0, 3 * Real.pi / 2] = true
    ∧ rotErrCode Real.sin Real.cos Real.arccos Real.pi
        ([0, 0, 0, 0, 0, 0] : List ℝ) [0, 0, 0, 0, 0, 3 * Real.pi / 2]
        = -(Real.pi / 2)
    ∧ rotErrSpecAbs Real.sin Real.cos Real.arccos Real.pi
        ([0, 0, 0, 0, 0, 0] : List ℝ) [0, 0, 0, 0, 0, 3 * Real.pi / 2]
        = Real.pi / 2
    ∧ (1 : ℝ) / 10 < Real.pi / 2 := by
  have hpi := Real.pi_pos
  refine ⟨?_, rotErrCode_c5, rotErrSpecAbs_c5, by nlinarith [Real.pi_gt_three]⟩
  simp only [isGoalPoseRPY, List.getD_cons_zero, List.getD_cons_succ]
  split
  · rw [decide_eq_true_eq, rotErrCode_c5]
    nlinarith
  · rename_i hcond
    exact absurd (by norm_num) hcond
